import Mathlib

/-!
Verification of the ollama-agent core loop against its specification.

This file shallowly embeds the Python modules `agent/prompt_engine.py`,
`agent/agent.py` and `agent/memory.py` into Lean 4.  Pure functions of the
source become Lean functions over `String`/`List`; the clock
(`datetime.now()`) and the interactive operator answers (`Confirm.ask`,
`Prompt.ask`) become explicit parameters; Python `float` arithmetic in the
step budgeter is modelled with exact rationals (all the constants involved
are decimal fractions); Python strings are modelled at the level of
character sequences with ASCII case folding and ASCII whitespace (the agent
only ever feeds ASCII keyword tables through these paths).
-/

set_option maxRecDepth 600000

/-! ## Python string primitives -/

/-- ASCII whitespace set used by Python `str.split` / `str.strip` / `\s`. -/
def isPySpace (c : Char) : Bool :=
  c = ' ' || c = '\t' || c = '\n' || c = '\x0d' || c = '\x0b' || c = '\x0c'

/-- Python `str.lower`, per-character case folding (ASCII fragment). -/
def pyLower (s : String) : String := ⟨s.data.map Char.toLower⟩

/-- Substring test on character lists: `containsB hay needle` is true iff
`needle` occurs contiguously inside `hay` (Python `needle in hay`). -/
def containsB : List Char → List Char → Bool
  | [], needle => needle.isEmpty
  | a :: t, needle => if needle.isPrefixOf (a :: t) then true else containsB t needle

/-- Python `needle in hay` on strings. -/
def pyIn (needle hay : String) : Bool := containsB hay.data needle.data

theorem containsB_iff (hay needle : List Char) :
    containsB hay needle = true ↔ needle <:+: hay := by
  induction hay with
  | nil =>
    constructor
    · intro h
      have hn : needle = [] := by
        simpa [containsB, List.isEmpty_iff] using h
      simp [hn]
    · intro h
      have hn : needle = [] := by simpa using h
      simp [containsB, hn]
  | cons a t ih =>
    rw [containsB, List.infix_cons_iff]
    cases hp : needle.isPrefixOf (a :: t) with
    | true => simp [List.isPrefixOf_iff_prefix.mp hp]
    | false =>
      have hnp : ¬ needle <+: a :: t := by
        rw [← List.isPrefixOf_iff_prefix, hp]; simp
      simp [hp, ih, hnp]

theorem pyIn_iff (needle hay : String) :
    pyIn needle hay = true ↔ needle.data <:+: hay.data := containsB_iff _ _

/-- Python `str.strip()` (ASCII whitespace fragment). -/
def pyStrip (s : String) : String :=
  ⟨((s.data.dropWhile isPySpace).reverse.dropWhile isPySpace).reverse⟩

/-- Worker for `pySplit`: `cur` is the current word accumulated in reverse. -/
def pySplitGo : List Char → List Char → List String
  | [], cur => if cur.isEmpty then [] else [⟨cur.reverse⟩]
  | c :: t, cur =>
    if isPySpace c then
      if cur.isEmpty then pySplitGo t [] else ⟨cur.reverse⟩ :: pySplitGo t []
    else
      pySplitGo t (c :: cur)

/-- Python `str.split()` with no separator: split on whitespace runs,
dropping empty fields. -/
def pySplit (s : String) : List String := pySplitGo s.data []

/-- Worker for `pyCount`: counts non-overlapping occurrences of the
(non-empty) `needle` scanning left to right, as Python `str.count` does.
Structural recursion on a fuel that bounds the number of scan steps; every
step consumes at least one character, so `hay.length` fuel is enough. -/
def pyCountGo (needle : List Char) : Nat → List Char → Nat
  | _, [] => 0
  | 0, _ => 0
  | fuel + 1, a :: t =>
    if needle.isPrefixOf (a :: t) then
      1 + pyCountGo needle fuel ((a :: t).drop needle.length)
    else
      pyCountGo needle fuel t

/-- Python `hay.count(needle)` on character lists (an empty needle counts
`len + 1` occurrences, as in Python). -/
def pyCountL (hay needle : List Char) : Nat :=
  if needle = [] then hay.length + 1 else pyCountGo needle hay.length hay

/-- Python `hay.count(needle)`. -/
def pyCount (hay needle : String) : Nat := pyCountL hay.data needle.data

/-- Code-point lexicographic `<` on character lists (Python string `<`). -/
def charListLt : List Char → List Char → Bool
  | [], [] => false
  | [], _ :: _ => true
  | _ :: _, [] => false
  | a :: as, b :: bs =>
    if a.toNat < b.toNat then true
    else if b.toNat < a.toNat then false
    else charListLt as bs

/-- Python `a < b` on strings (code-point lexicographic). -/
def strLtB (a b : String) : Bool := charListLt a.data b.data

/-! ## Step budgeter (`Agent._calculate_adaptive_steps`, agent.py lines
279-311).  Python float arithmetic is modelled with exact rationals; all
constants appearing (0.1, 0.3, 0.05 and the small integer weights) are
decimal fractions. -/

/-- The fixed keyword→weight table `complexity_indicators` of
`_calculate_adaptive_steps`. -/
def complexity_indicators : List (String × Nat) :=
  [("create", 5), ("analyze", 10), ("comprehensive", 15), ("test", 8),
   ("implement", 12), ("generate", 8), ("optimize", 15), ("refactor", 12),
   ("document", 10), ("backup", 6), ("migrate", 15), ("deploy", 12),
   ("multiple", 8), ("all", 6), ("entire", 10), ("complex", 15),
   ("advanced", 12), ("detailed", 8), ("thorough", 10)]

/-- The conjunction word list of `_calculate_adaptive_steps`. -/
def conjunctions : List String :=
  ["and", "then", "also", "additionally", "furthermore"]

/-- The running `complexity_score` of `_calculate_adaptive_steps`: starts at
1.0, adds `weight * 0.1` for each indicator present in the lower-cased goal,
adds `count * 0.3` per conjunction, and `0.05` per word beyond 20. -/
def complexityScore (goal : String) : ℚ :=
  let goal_lower := pyLower goal
  let s1 := complexity_indicators.foldl
    (fun acc iw => if pyIn iw.1 goal_lower then acc + (iw.2 : ℚ) * (1 / 10) else acc) 1
  let s2 := conjunctions.foldl
    (fun acc conj => acc + (pyCount goal_lower conj : ℚ) * (3 / 10)) s1
  let word_count := (pySplit goal).length
  if 20 < word_count then s2 + ((word_count : ℚ) - 20) * (1 / 20) else s2

/-- Python `int()` on a rational: truncation toward zero. -/
def pyInt (q : ℚ) : ℤ := if 0 ≤ q then ⌊q⌋ else -⌊-q⌋

/-- `Agent._calculate_adaptive_steps`: `max(20, min(int(20 * score), 200))`. -/
def calculate_adaptive_steps (goal : String) : ℤ :=
  let adaptive_steps := pyInt (20 * complexityScore goal)
  max 20 (min adaptive_steps 200)

/-- Modelled from the spec (claim C8): the multiplier `m` starts at 1.0,
gains `weight * 0.1` per table keyword present in the lower-cased goal,
`0.3` per occurrence of each conjunction word, and `0.05` per word beyond
20 words of goal length. -/
def multiplierSpec (goal : String) : ℚ :=
  1 + ((complexity_indicators.filter (fun iw => pyIn iw.1 (pyLower goal))).map
        (fun iw => (iw.2 : ℚ) * (1 / 10))).sum
    + (conjunctions.map
        (fun conj => (pyCount (pyLower goal) conj : ℚ) * (3 / 10))).sum
    + (if 20 < (pySplit goal).length
       then (((pySplit goal).length : ℚ) - 20) * (1 / 20) else 0)

/-- Modelled from the spec (claim C8): `round(20 * m)` clamped to [20, 200]. -/
def adaptiveStepsSpec (goal : String) : ℤ :=
  max 20 (min (round ((20 : ℚ) * multiplierSpec goal)) 200)

/-! ### Budgeter lemmas -/

theorem foldl_indicators_eq (gl : String) (l : List (String × Nat)) (init : ℚ) :
    l.foldl (fun acc iw => if pyIn iw.1 gl then acc + (iw.2 : ℚ) * (1 / 10) else acc) init
      = init + ((l.filter (fun iw => pyIn iw.1 gl)).map
          (fun iw => (iw.2 : ℚ) * (1 / 10))).sum := by
  induction l generalizing init with
  | nil => simp
  | cons x xs ih =>
    rw [List.foldl_cons, ih, List.filter_cons]
    cases hx : pyIn x.1 gl with
    | true => simp [hx]; ring
    | false => simp [hx]

theorem foldl_conj_eq (gl : String) (l : List String) (init : ℚ) :
    l.foldl (fun acc conj => acc + (pyCount gl conj : ℚ) * (3 / 10)) init
      = init + (l.map (fun conj => (pyCount gl conj : ℚ) * (3 / 10))).sum := by
  induction l generalizing init with
  | nil => simp
  | cons x xs ih => rw [List.foldl_cons, ih, List.map_cons, List.sum_cons]; ring

theorem complexityScore_eq_multiplierSpec (goal : String) :
    complexityScore goal = multiplierSpec goal := by
  unfold complexityScore multiplierSpec
  simp only [foldl_indicators_eq, foldl_conj_eq]
  by_cases h : 20 < (pySplit goal).length <;> simp [h]

/-- `q` scaled by 20 is an integer. -/
def Int20 (q : ℚ) : Prop := ∃ n : ℤ, 20 * q = (n : ℚ)

theorem int20_add {a b : ℚ} (ha : Int20 a) (hb : Int20 b) : Int20 (a + b) := by
  obtain ⟨n, hn⟩ := ha
  obtain ⟨m, hm⟩ := hb
  exact ⟨n + m, by push_cast; rw [mul_add, hn, hm]⟩

theorem int20_sum (l : List ℚ) (h : ∀ q ∈ l, Int20 q) : Int20 l.sum := by
  induction l with
  | nil => exact ⟨0, by simp⟩
  | cons x xs ih =>
    rw [List.sum_cons]
    exact int20_add (h x (by simp)) (ih fun q hq => h q (by simp [hq]))

theorem int20_multiplierSpec (goal : String) : Int20 (multiplierSpec goal) := by
  unfold multiplierSpec
  refine int20_add (int20_add (int20_add ⟨20, by norm_num⟩ ?_) ?_) ?_
  · refine int20_sum _ fun q hq => ?_
    obtain ⟨iw, _, rfl⟩ := List.mem_map.mp hq
    exact ⟨2 * iw.2, by push_cast; ring⟩
  · refine int20_sum _ fun q hq => ?_
    obtain ⟨conj, _, rfl⟩ := List.mem_map.mp hq
    exact ⟨6 * pyCount (pyLower goal) conj, by push_cast; ring⟩
  · by_cases h : 20 < (pySplit goal).length
    · simp only [h, if_true]
      exact ⟨(pySplit goal).length - 20, by push_cast; ring⟩
    · exact ⟨0, by simp [h]⟩

theorem pyInt_intCast (n : ℤ) : pyInt (n : ℚ) = n := by
  unfold pyInt
  split_ifs with h
  · simp
  · rw [← Int.cast_neg, Int.floor_intCast, neg_neg]

/-- C8: the adaptive step estimate agrees with the spec formula
`round(20 * m)` clamped to [20, 200] (in exact arithmetic `20 * m` is always
an integer, so the code's truncation coincides with rounding). -/
theorem calculate_adaptive_steps_eq_spec (goal : String) :
    calculate_adaptive_steps goal = adaptiveStepsSpec goal := by
  unfold calculate_adaptive_steps adaptiveStepsSpec
  rw [← complexityScore_eq_multiplierSpec]
  obtain ⟨n, hn⟩ := by
    have := int20_multiplierSpec goal
    rwa [← complexityScore_eq_multiplierSpec] at this
  rw [hn, pyInt_intCast, round_intCast]

/-- C3: the step-budget estimate always lies in [20, 200], and it is a
deterministic pure function of the goal text: two calls on the same goal
text return the same value.  (The clamp `max 20 (min _ 200)` is applied
after all arithmetic, so the bounds do not depend on how the arithmetic is
modelled; determinism holds because the estimate reads nothing but the goal
string.) -/
theorem calculate_adaptive_steps_bounds (goal goal2 : String) (h : goal2 = goal) :
    20 ≤ calculate_adaptive_steps goal ∧ calculate_adaptive_steps goal ≤ 200 ∧
    calculate_adaptive_steps goal2 = calculate_adaptive_steps goal := by
  refine ⟨le_max_left _ _, ?_, by rw [h]⟩
  exact max_le (by norm_num) (min_le_right _ _)

/-- C3 witness: the bounds theorem applied at a concrete goal. -/
theorem calculate_adaptive_steps_bounds_witness :
    "create and test everything" = "create and test everything" ∧
    (20 ≤ calculate_adaptive_steps "create and test everything" ∧
      calculate_adaptive_steps "create and test everything" ≤ 200 ∧
      calculate_adaptive_steps "create and test everything" =
        calculate_adaptive_steps "create and test everything") :=
  ⟨rfl, calculate_adaptive_steps_bounds "create and test everything"
    "create and test everything" rfl⟩

/-! ## JSON values.  Python objects produced by `json.loads` are modelled by
`Jv`; numeric literals keep their lexeme (their numeric value is never used
by the agent core), objects are key/value lists in insertion order with
last-wins overwrite on duplicate keys (Python dict semantics). -/

inductive Jv where
  | str : String → Jv
  | num : String → Jv
  | bool : Bool → Jv
  | null : Jv
  | arr : List Jv → Jv
  | obj : List (String × Jv) → Jv

/-- Python `key in d` for a dict modelled as a key/value list. -/
def hasKey (args : List (String × Jv)) (key : String) : Bool :=
  args.any (fun kv => kv.1 = key)

/-! ## Argument validation (`ResponseValidator.validate_tool_args`,
prompt_engine.py lines 287-302). -/

/-- `ResponseValidator.validate_tool_args`: the `elif` chain appends at most
one error message, and only for the four tools it knows about; the function
returns `(len(errors) == 0, errors)`. -/
def validate_tool_args (tool_name : String) (args : List (String × Jv)) :
    Bool × List String :=
  let errors : List String :=
    if tool_name = "search_file" ∧ ¬ (hasKey args "file_path" = true) then
      ["search_file requires \x27file_path\x27 argument"]
    else if tool_name = "modify_file" ∧
        ¬ (hasKey args "file_path" = true ∧ hasKey args "new_content" = true) then
      ["modify_file requires \x27file_path\x27 and \x27new_content\x27 arguments"]
    else if tool_name = "execute_shell_command" ∧ ¬ (hasKey args "command" = true) then
      ["execute_shell_command requires \x27command\x27 argument"]
    else if tool_name = "list_directory" ∧ args.isEmpty = false ∧
        ¬ (hasKey args "directory_path" = true) then
      ["list_directory expects \x27directory_path\x27 argument"]
    else []
  (errors.length == 0, errors)

/-- C10: argument validation is partial and permissive — every tool name
outside the four known ones validates with no errors for any args mapping,
and `list_directory` with an empty args mapping also validates. -/
theorem validate_tool_args_permissive (tool : String) (args : List (String × Jv))
    (h : tool ∉ ["search_file", "modify_file", "execute_shell_command",
                 "list_directory"]) :
    validate_tool_args tool args = (true, []) ∧
    validate_tool_args "list_directory" [] = (true, []) := by
  have h1 : tool ≠ "search_file" := fun e => h (by simp [e])
  have h2 : tool ≠ "modify_file" := fun e => h (by simp [e])
  have h3 : tool ≠ "execute_shell_command" := fun e => h (by simp [e])
  have h4 : tool ≠ "list_directory" := fun e => h (by simp [e])
  refine ⟨?_, rfl⟩
  simp [validate_tool_args, h1, h2, h3, h4]

/-- C10 witness: `create_file` (not one of the four checked tools) with an
arbitrary argument mapping validates with no errors. -/
theorem validate_tool_args_permissive_witness :
    "create_file" ∉ ["search_file", "modify_file", "execute_shell_command",
                     "list_directory"] ∧
    (validate_tool_args "create_file" [("anything", Jv.str "x")] = (true, []) ∧
     validate_tool_args "list_directory" [] = (true, [])) :=
  ⟨by decide,
   validate_tool_args_permissive "create_file" [("anything", Jv.str "x")]
     (by decide)⟩

/-! ## Recovery heuristic (`PromptEngine.suggest_recovery_action`,
prompt_engine.py lines 221-267). -/

/-- One run-history entry `{action, args, result}` as appended by
`Agent.execute` (agent.py line 225). -/
structure HistoryEntry where
  action : String
  args : List (String × Jv)
  result : String

/-- The `{thought, tool, args}` dict driving one step. -/
structure ActionDict where
  thought : String
  tool : String
  args : List (String × Jv)

/-- `history[-3:] if len(history) >= 3 else history` (prompt_engine.py
line 235). -/
def recentThree (history : List HistoryEntry) : List HistoryEntry :=
  if 3 ≤ history.length then history.drop (history.length - 3) else history

/-- The failure test of `suggest_recovery_action` (lines 236-238):
`'error' in str(result).lower() or 'unknown tool' in str(result).lower()`. -/
def isFailureEntry (a : HistoryEntry) : Bool :=
  pyIn "error" (pyLower a.result) || pyIn "unknown tool" (pyLower a.result)

/-- `PromptEngine.suggest_recovery_action`: deterministic fallback ladder
used when parsing fails. -/
def suggest_recovery_action (goal : String) (history : List HistoryEntry)
    (errors : List String) : ActionDict :=
  if history.isEmpty then
    ⟨"Starting with directory exploration to understand the workspace",
     "list_directory", [("directory_path", Jv.str ".")]⟩
  else
    let recent_actions := recentThree history
    let failed_tools := (recent_actions.filter isFailureEntry).map (·.action)
    if 2 ≤ failed_tools.length then
      ⟨"Multiple tool failures detected. Need to clarify available actions. Errors: "
         ++ String.intercalate "; " (errors.take 2),
       "no_op", [("reason", Jv.str "Experiencing parsing errors, need user guidance")]⟩
    else
      let goal_lower := pyLower goal
      if pyIn "memory" goal_lower || pyIn "statistics" goal_lower then
        ⟨"Goal mentions memory/statistics, attempting to get memory statistics",
         "get_memory_statistics", []⟩
      else if pyIn "list" goal_lower || pyIn "show" goal_lower then
        ⟨"Goal mentions listing/showing, starting with directory listing",
         "list_directory", [("directory_path", Jv.str ".")]⟩
      else
        ⟨"Taking safe exploratory action to understand current state",
         "get_current_directory", []⟩

/-- A needle whose characters are fixed by lowercasing is still contained
after the haystack is lowercased. -/
theorem pyIn_pyLower_of_pyIn (needle hay : String)
    (hfix : needle.data.map Char.toLower = needle.data)
    (h : pyIn needle hay = true) : pyIn needle (pyLower hay) = true := by
  rw [pyIn_iff] at h ⊢
  have := h.map Char.toLower
  rwa [hfix] at this
  
/-- If every entry of the last-3 window has a result containing the literal
substring "error", then every entry passes the failure test, so the window's
failure count is its full length. -/
theorem filter_isFailureEntry_all (l : List HistoryEntry)
    (h : ∀ e ∈ l, pyIn "error" e.result = true) :
    (l.filter isFailureEntry).length = l.length := by
  rw [List.filter_eq_self.mpr]
  intro e he
  have h1 : pyIn "error" (pyLower e.result) = true :=
    pyIn_pyLower_of_pyIn _ _ (by decide) (h e he)
  simp [isFailureEntry, h1]

/-- C4: on an empty history the recovery heuristic always explores with
`list_directory {"directory_path": "."}`; on a non-empty history in which at
least 2 of the last 3 entries fail the `'error' / 'unknown tool'` result
test, it returns a `no_op` action. -/
theorem suggest_recovery_action_spec (goal : String) (errors : List String)
    (history : List HistoryEntry)
    (h1 : history.isEmpty = false)
    (h2 : 2 ≤ ((recentThree history).filter isFailureEntry).length) :
    suggest_recovery_action goal [] errors =
      ⟨"Starting with directory exploration to understand the workspace",
       "list_directory", [("directory_path", Jv.str ".")]⟩ ∧
    (suggest_recovery_action goal history errors).tool = "no_op" := by
  constructor
  · rfl
  · rw [suggest_recovery_action, h1]
    simp only [Bool.false_eq_true, if_false]
    rw [if_pos]
    simpa using h2

/-- C4 witness: a 3-entry history whose results all contain "error" (each of
the last 3 entries fails, hence at least 2 do) produces `no_op`, and the
empty history produces the `list_directory` exploration action. -/
theorem suggest_recovery_action_spec_witness :
    ([⟨"search_file", [], "Error: no such file"⟩,
      ⟨"search_file", [], "error again"⟩,
      ⟨"execute_shell_command", [], "unknown tool error"⟩] :
        List HistoryEntry).isEmpty = false ∧
    2 ≤ ((recentThree [⟨"search_file", [], "Error: no such file"⟩,
      ⟨"search_file", [], "error again"⟩,
      ⟨"execute_shell_command", [], "unknown tool error"⟩]).filter
        isFailureEntry).length ∧
    (suggest_recovery_action "fix the bug" [] ["could not parse"] =
      ⟨"Starting with directory exploration to understand the workspace",
       "list_directory", [("directory_path", Jv.str ".")]⟩ ∧
    (suggest_recovery_action "fix the bug"
      [⟨"search_file", [], "Error: no such file"⟩,
       ⟨"search_file", [], "error again"⟩,
       ⟨"execute_shell_command", [], "unknown tool error"⟩]
      ["could not parse"]).tool = "no_op") :=
  ⟨rfl, by decide,
   suggest_recovery_action_spec "fix the bug" ["could not parse"] _ rfl (by decide)⟩

/-! ## Fuzzy tool-name correction
(`ResponseValidator.suggest_tool_correction`, prompt_engine.py lines
278-285, which calls `difflib.get_close_matches(attempted, available, n=1,
cutoff=0.6)`).  `difflib.SequenceMatcher` is embedded exactly: `b2j`
index map, the `j2len` dynamic program of `find_longest_match` (no junk —
autojunk only applies to sequences of 200+ elements, far beyond tool
names), and the recursive matching-block decomposition.  Ratios
`2*M/(len(a)+len(b))` are compared by cross-multiplication in exact integer
arithmetic rather than via Python floats; all ratios arising here are far
from the 0.6 cutoff, so float rounding cannot change the outcome. -/

/-- `SequenceMatcher.b2j`: the ascending list of positions of `c` in `b`. -/
def b2j (b : List Char) (c : Char) : List Nat :=
  (b.enum.filter (fun p => p.2 = c)).map (·.1)

/-- Inner loop body of `find_longest_match`: for one position `i` of `a`,
walk the `b`-positions of `a[i]` in `[blo, bhi)`, extending runs recorded in
`j2len` and updating the best block on strictly greater length (so ties keep
the earliest `i`, then the earliest `j`, matching difflib).  The
accumulator pairs the current best `(besti, bestj, bestsize)` with the
`newj2len` table under construction. -/
def flmInner (j2len : List (Nat × Nat)) (i : Nat)
    (acc : (Nat × Nat × Nat) × List (Nat × Nat)) (j : Nat) :
    (Nat × Nat × Nat) × List (Nat × Nat) :=
  let k := (if j = 0 then 0 else
    (match j2len.find? (fun p => p.1 = j - 1) with
     | some p => p.2
     | none => 0)) + 1
  let best := acc.1
  let best := if best.2.2 < k then (i + 1 - k, j + 1 - k, k) else best
  (best, acc.2 ++ [(j, k)])

/-- `SequenceMatcher.find_longest_match(alo, ahi, blo, bhi)` with
`a`, `b` explicit and no junk; returns `(i, j, size)`. -/
def find_longest_match (a b : List Char) (alo ahi blo bhi : Nat) :
    Nat × Nat × Nat :=
  let step := fun (acc : (Nat × Nat × Nat) × List (Nat × Nat)) (i : Nat) =>
    let js := (b2j b (a.getD i ' ')).filter
      (fun j => decide (blo ≤ j) && decide (j < bhi))
    js.foldl (flmInner acc.2 i) (acc.1, [])
  ((List.range' alo (ahi - alo)).foldl step ((alo, blo, 0), [])).1

/-- Total size of the matching blocks of `SequenceMatcher
.get_matching_blocks` restricted to `a[alo:ahi]` × `b[blo:bhi]`: the
longest block plus recursion on both sides.  Structural fuel: each
recursive interval is strictly shorter in `a`, so `ahi - alo` fuel
suffices. -/
def matchTotalGo (a b : List Char) : Nat → Nat → Nat → Nat → Nat → Nat
  | 0, _, _, _, _ => 0
  | fuel + 1, alo, ahi, blo, bhi =>
    let ijk := find_longest_match a b alo ahi blo bhi
    let i := ijk.1
    let j := ijk.2.1
    let k := ijk.2.2
    if k = 0 then 0
    else
      k + (if alo < i ∧ blo < j then matchTotalGo a b fuel alo i blo j else 0)
        + (if i + k < ahi ∧ j + k < bhi then
             matchTotalGo a b fuel (i + k) ahi (j + k) bhi else 0)

/-- `M` of `SequenceMatcher.ratio`: the total matched size over the whole
sequences. -/
def sequenceMatcherM (a b : List Char) : Nat :=
  matchTotalGo a b (a.length + 1) 0 a.length 0 b.length

/-- `difflib.get_close_matches(word, possibilities, n=1, cutoff=0.6)` as
used by `suggest_tool_correction`: keep candidates whose ratio
`2*M/(len(x)+len(word))` is at least 0.6 (`10*M >= 3*(len(x)+len(word))`
cross-multiplied), then pick the maximum of the `(ratio, x)` tuples —
higher ratio first, ties broken by the lexicographically larger string, the
earlier entry winning exact ties — and return it, or `None` if no candidate
passes the cutoff.  (`quick_ratio`/`real_quick_ratio` are upper bounds of
`ratio`, so the triple cutoff test of difflib is equivalent to
`ratio >= cutoff`.) -/
def get_close_matches1 (word : String) (possibilities : List String) :
    Option String :=
  let scored := possibilities.filterMap (fun x =>
    let m := sequenceMatcherM x.data word.data
    let t := x.length + word.length
    if 3 * t ≤ 10 * m then some (m, t, x) else none)
  match scored with
  | [] => none
  | first :: rest =>
    some ((rest.foldl (fun cur cand =>
      if cur.1 * cand.2.1 < cand.1 * cur.2.1 ∨
         (cur.1 * cand.2.1 = cand.1 * cur.2.1 ∧ strLtB cur.2.2 cand.2.2 = true)
      then cand else cur) first).2.2)

/-- `ResponseValidator.suggest_tool_correction`. -/
def suggest_tool_correction (attempted_tool : String)
    (available_tools : List String) : Option String :=
  get_close_matches1 attempted_tool available_tools

/-- The available tool list of `Agent.execute` (agent.py line 125):
`list(tools.TOOLS.keys()) + ["no_op", "finish"]`, with `tools.TOOLS`
assembled in tools.py lines 635-1102 (base registry, then advanced, web,
server, intelligence and testing tools, in dict insertion order). -/
def availableTools : List String :=
  ["execute_shell_command", "search_file", "create_file", "modify_file",
   "append_to_file", "edit_file_lines", "list_directory", "find_files",
   "get_file_info", "create_directory", "create_folder",
   "create_project_structure", "copy_file", "move_file", "delete_file",
   "search_in_files", "get_current_directory", "change_directory",
   "get_memory_statistics", "open_browser", "create_html_file",
   "view_file_in_browser", "generate_code_template",
   "create_development_server", "analyze_project_structure",
   "setup_git_repository", "create_docker_setup", "run_code_quality_check",
   "browse_web", "search_internet", "fetch_web_content", "parse_webpage",
   "get_weather_info", "get_news_headlines", "call_api",
   "install_web_dependencies", "start_server", "stop_server",
   "list_servers", "manage_process", "get_system_status",
   "get_running_processes", "check_port_availability",
   "install_server_dependencies", "analyze_task_intelligence",
   "learn_from_execution", "query_knowledge_base",
   "analyze_code_intelligence", "get_similar_solutions",
   "enhance_reasoning_capability", "test_generated_code",
   "improve_snake_game", "no_op", "finish"]

/-- The tool-validation step of `Agent.execute` (agent.py lines 165-174):
if the parsed tool is unknown, substitute a fuzzy correction when one
exists, else force `no_op`.  Crucially the source assigns
`tool = "no_op"` *before* building
`args = {"reason": f"Unknown tool attempted: {tool}"}`, so the recorded
reason interpolates the already-reassigned variable — the original
attempted name is lost.  The `let tool := "no_op"` below mirrors that
assignment order line by line. -/
def validateToolChoice (tool : String) (args : List (String × Jv))
    (available : List String) : String × List (String × Jv) :=
  if available.contains tool then (tool, args)
  else
    match suggest_tool_correction tool available with
    | some suggested_tool => (suggested_tool, args)
    | none =>
      let tool := "no_op"
      (tool, [("reason", Jv.str ("Unknown tool attempted: " ++ tool))])

/-- C2 (code bug): evaluating the validation step at the unknown tool name
"zzz" (no fuzzy match reaches the 0.6 cutoff) forces `no_op`, but the
stored no_op reason reads "Unknown tool attempted: no_op" — the original
attempted name "zzz" is not in the report, because the source reassigns
`tool` before interpolating it into the reason string. -/
theorem validateToolChoice_unknown_tool_bug :
    availableTools.contains "zzz" = false ∧
    suggest_tool_correction "zzz" availableTools = none ∧
    validateToolChoice "zzz" [("directory_path", Jv.str ".")] availableTools =
      ("no_op", [("reason", Jv.str "Unknown tool attempted: no_op")]) :=
  ⟨rfl, rfl, rfl⟩

/-! ## Consent-gated tool invocation (`Agent._invoke_tool_with_consent`,
agent.py lines 528-594).  The two interactive `Confirm.ask` prompts and the
tool bodies are external effects: the operator's answers are passed in as
explicit booleans, and tool execution is an explicit function argument
returning the result string (every tool renders its own exceptions as error
strings, so a total function is the faithful type). -/

/-- The `no_confirm` / `session_consent_given` flags of `Agent`. -/
structure AgentFlags where
  no_confirm : Bool
  session_consent_given : Bool

/-- The operator's answers to the two interactive confirmations. -/
structure OperatorAnswers where
  sessionConsent : Bool
  confirmDangerous : Bool

/-- `Agent.get_session_consent` (agent.py lines 509-526): returns whether
consent holds and the updated flags. -/
def get_session_consent (flags : AgentFlags) (answers : OperatorAnswers) :
    Bool × AgentFlags :=
  if flags.no_confirm || flags.session_consent_given then (true, flags)
  else if answers.sessionConsent then
    (true, { flags with session_consent_given := true })
  else (false, flags)

/-- The fixed dangerous-command denylist (agent.py line 549). -/
def dangerous_patterns : List String :=
  ["rm -rf", "sudo", "chmod 777", "mkfs", "dd if=", "> /dev/"]

/-- `any(pattern in cmd.lower() for pattern in dangerous_patterns)`. -/
def isDangerousCmd (cmd : String) : Bool :=
  dangerous_patterns.any (fun p => pyIn p (pyLower cmd))

/-- `args.get("command", "")` with a string value (the args mapping comes
from parsed JSON; a non-string value would fault inside the tool, not
here). -/
def argGetStr (args : List (String × Jv)) (key dflt : String) : String :=
  match args.find? (fun kv => kv.1 = key) with
  | some (_, Jv.str s) => s
  | _ => dflt

/-- `write_operations` of `_invoke_tool_with_consent` (agent.py line 539). -/
def write_operations : List String :=
  ["execute_shell_command", "modify_file", "delete_file", "move_file"]

/-- The outcome of one `_invoke_tool_with_consent` call: the returned
string, whether the shell tool body was actually invoked, and the flags
after the call (session consent may have been granted). -/
structure InvokeOutcome where
  result : String
  shellInvoked : Bool
  flagsAfter : AgentFlags

/-- `Agent._invoke_tool_with_consent`.  `toolRun name args` stands for
`TOOLS[name](**args)` (total: every tool catches its own exceptions and the
final `except` renders call errors as `f"Error calling {tool_name}: ..."`);
the `modify_file` diff preview is console output only and does not affect
the returned value. -/
def invoke_tool_with_consent (flags : AgentFlags) (answers : OperatorAnswers)
    (toolRun : String → List (String × Jv) → String) (tools_keys : List String)
    (tool_name : String) (args : List (String × Jv)) : InvokeOutcome :=
  if tools_keys.contains tool_name = false then
    ⟨"Unknown tool: " ++ tool_name, false, flags⟩
  else
    let needConsent := write_operations.contains tool_name &&
      !flags.session_consent_given && !flags.no_confirm
    let consentStep :=
      if needConsent then get_session_consent flags answers else (true, flags)
    if consentStep.1 = false then
      ⟨"❌ Operation cancelled - insufficient permissions", false, consentStep.2⟩
    else
      let flags2 := consentStep.2
      if tool_name = "execute_shell_command" then
        let cmd := argGetStr args "command" ""
        let is_dangerous := isDangerousCmd cmd
        if is_dangerous && !flags2.no_confirm then
          if answers.confirmDangerous = false then
            ⟨"[skipped - dangerous command]", false, flags2⟩
          else
            ⟨toolRun tool_name args, true, flags2⟩
        else
          ⟨toolRun tool_name args, true, flags2⟩
      else
        ⟨toolRun tool_name args, false, flags2⟩

/-- C5: with the no-confirmation override off, a shell command matching the
dangerous denylist is executed only after the explicit extra confirmation,
even when session consent is already granted; declining returns the
skipped-result string and the shell tool body is never called. -/
theorem dangerous_command_gate (flags : AgentFlags) (answers : OperatorAnswers)
    (toolRun : String → List (String × Jv) → String) (tools_keys : List String)
    (args : List (String × Jv))
    (hDanger : isDangerousCmd (argGetStr args "command" "") = true)
    (hNoConfirm : flags.no_confirm = false)
    (hSession : flags.session_consent_given = true)
    (hKey : tools_keys.contains "execute_shell_command" = true) :
    (answers.confirmDangerous = false →
      (invoke_tool_with_consent flags answers toolRun tools_keys
        "execute_shell_command" args).result = "[skipped - dangerous command]" ∧
      (invoke_tool_with_consent flags answers toolRun tools_keys
        "execute_shell_command" args).shellInvoked = false) ∧
    ((invoke_tool_with_consent flags answers toolRun tools_keys
        "execute_shell_command" args).shellInvoked = true →
      answers.confirmDangerous = true) := by
  unfold invoke_tool_with_consent
  simp only [hKey]
  have hconsent : (write_operations.contains "execute_shell_command" &&
      !flags.session_consent_given && !flags.no_confirm) = false := by
    simp [hSession]
  simp only [hconsent, if_false, Bool.false_eq_true, if_true]
  simp only [hDanger, hNoConfirm]
  cases hc : answers.confirmDangerous with
  | false => simp [hc]
  | true => simp [hc]

/-- C5 witness: `sudo rm -rf /` with session consent granted, override off,
and the operator declining the extra confirmation: the result is the
skipped string and the shell tool is not called; and the only way the shell
body runs is a positive extra confirmation. -/
theorem dangerous_command_gate_witness :
    isDangerousCmd (argGetStr [("command", Jv.str "sudo rm -rf /")] "command" "")
        = true ∧
    (AgentFlags.mk false true).no_confirm = false ∧
    (AgentFlags.mk false true).session_consent_given = true ∧
    (((OperatorAnswers.mk true false).confirmDangerous = false →
      (invoke_tool_with_consent (AgentFlags.mk false true)
        (OperatorAnswers.mk true false) (fun _ _ => "ran")
        ["execute_shell_command"] "execute_shell_command"
        [("command", Jv.str "sudo rm -rf /")]).result =
          "[skipped - dangerous command]" ∧
      (invoke_tool_with_consent (AgentFlags.mk false true)
        (OperatorAnswers.mk true false) (fun _ _ => "ran")
        ["execute_shell_command"] "execute_shell_command"
        [("command", Jv.str "sudo rm -rf /")]).shellInvoked = false) ∧
    ((invoke_tool_with_consent (AgentFlags.mk false true)
        (OperatorAnswers.mk true false) (fun _ _ => "ran")
        ["execute_shell_command"] "execute_shell_command"
        [("command", Jv.str "sudo rm -rf /")]).shellInvoked = true →
      (OperatorAnswers.mk true false).confirmDangerous = true)) :=
  ⟨rfl, rfl, rfl,
   dangerous_command_gate (AgentFlags.mk false true) (OperatorAnswers.mk true false)
     (fun _ _ => "ran") ["execute_shell_command"]
     [("command", Jv.str "sudo rm -rf /")] rfl rfl rfl rfl⟩

/-! ## Substring predicate used for prompt-content statements -/

/-- `needle` occurs contiguously inside `hay`. -/
def SubStr (needle hay : String) : Prop := needle.data <:+: hay.data

instance (n h : String) : Decidable (SubStr n h) :=
  decidable_of_iff (containsB h.data n.data = true) (containsB_iff h.data n.data)

theorem SubStr.rfl (s : String) : SubStr s s := ⟨[], [], by simp⟩

theorem SubStr.appendLeft {n h : String} (a : String) (hs : SubStr n h) :
    SubStr n (a ++ h) := by
  obtain ⟨s, t, hst⟩ := hs
  exact ⟨a.data ++ s, t, by rw [String.data_append]; simp [hst]⟩

theorem SubStr.appendRight {n h : String} (b : String) (hs : SubStr n h) :
    SubStr n (h ++ b) := by
  obtain ⟨s, t, hst⟩ := hs
  exact ⟨s, t ++ b.data, by rw [String.data_append, ← hst]; simp⟩

/-- Concatenation of a list of strings in order (the `section += line` loop
of the prompt builder). -/
def strJoin : List String → String
  | [] => ""
  | x :: xs => x ++ strJoin xs

theorem SubStr_of_mem_strJoin {x : String} {l : List String} (hx : x ∈ l) :
    SubStr x (strJoin l) := by
  induction l with
  | nil => cases hx
  | cons y ys ih =>
    rcases List.mem_cons.mp hx with h | h
    · subst h; exact (SubStr.rfl x).appendRight (strJoin ys)
    · exact (ih h).appendLeft y

/-! ## Prompt builder (`PromptEngine.create_enhanced_prompt`,
prompt_engine.py lines 17-116). -/

/-- Simplified Python `repr` of a string: single-quoted (the agent's history
args are ASCII identifiers and paths, where Python repr adds nothing but the
quotes). -/
def pyQuote (s : String) : String := "\x27" ++ s ++ "\x27"

/-- Python `str(value)` for a parsed-JSON value, as interpolated into the
history line `f"{i}. {tool}({args}) -> {result}"`.  Fuel-structural so the
kernel can evaluate it; the fuel bounds the nesting depth. -/
def pyReprJvF : Nat → Jv → String
  | 0, _ => ""
  | _ + 1, Jv.str s => pyQuote s
  | _ + 1, Jv.num lexeme => lexeme
  | _ + 1, Jv.bool b => if b then "True" else "False"
  | _ + 1, Jv.null => "None"
  | f + 1, Jv.arr xs =>
    "[" ++ String.intercalate ", " (xs.map (pyReprJvF f)) ++ "]"
  | f + 1, Jv.obj kvs =>
    "\x7b" ++ String.intercalate ", "
      (kvs.map (fun kv => pyQuote kv.1 ++ ": " ++ pyReprJvF f kv.2)) ++ "\x7d"

/-- Python `str(args)` for an args dict (fuel far above any nesting depth
appearing in this development). -/
def pyReprArgs (args : List (String × Jv)) : String := pyReprJvF 1000 (Jv.obj args)

/-- The static `tool_descriptions` table (prompt_engine.py lines 22-56). -/
def tool_descriptions : List (String × String) :=
  [("execute_shell_command",
    "Execute system commands (requires confirmation for dangerous operations)"),
   ("search_file", "Read and display file contents"),
   ("create_file", "Create a new file with optional content"),
   ("modify_file", "Create or modify file contents (shows diff preview)"),
   ("append_to_file", "Append content to an existing file"),
   ("edit_file_lines",
    "Edit specific lines in a file (start_line, end_line, new_content)"),
   ("list_directory", "List directory contents with file sizes"),
   ("find_files", "Find files matching patterns recursively"),
   ("get_file_info", "Get detailed file/directory metadata"),
   ("create_directory", "Create new directories"),
   ("create_folder", "Create new folders/directory structures"),
   ("create_project_structure",
    "Create complete project templates (python, web, generic)"),
   ("copy_file", "Copy files from source to destination"),
   ("move_file", "Move/rename files (requires confirmation)"),
   ("delete_file", "Delete files/directories (requires confirmation)"),
   ("search_in_files", "Search for text patterns within files"),
   ("get_current_directory", "Display current working directory"),
   ("change_directory", "Change working directory"),
   ("get_memory_statistics", "Display agent memory system statistics"),
   ("open_browser", "Open URLs or local files in default browser"),
   ("create_html_file", "Create HTML files with basic structure"),
   ("view_file_in_browser",
    "View any text file in browser with syntax highlighting"),
   ("generate_code_template",
    "Generate code templates (language, template_type, name)"),
   ("create_development_server", "Create and configure development servers"),
   ("analyze_project_structure",
    "Analyze project structure and provide insights"),
   ("setup_git_repository", "Initialize git repository with optional remote"),
   ("create_docker_setup", "Create Dockerfile and Docker setup for projects"),
   ("run_code_quality_check", "Run code quality checks (linting, formatting)"),
   ("no_op", "Take no action (explain reasoning)"),
   ("finish", "Complete the goal (provide summary)")]

/-- `tool_descriptions.get(tool, "No description available")`. -/
def toolDescription (tool : String) : String :=
  match tool_descriptions.find? (fun p => p.1 = tool) with
  | some p => p.2
  | none => "No description available"

/-- Python `f"{i:2d}"`: decimal, right-aligned to width 2. -/
def fmt2d (i : Nat) : String :=
  if i < 10 then " " ++ toString i else toString i

/-- The `AVAILABLE TOOLS` section (lines 59-62), numbering from 1. -/
def toolsSection (available_tools : List String) : String :=
  "AVAILABLE TOOLS:\n" ++
    strJoin (available_tools.enum.map (fun p =>
      fmt2d (p.1 + 1) ++ ". " ++ p.2 ++ ": " ++ toolDescription p.2 ++ "\n"))

/-- Python `s[:n]` (prefix of at most `n` characters). -/
def pyTake (s : String) (n : Nat) : String := ⟨s.data.take n⟩

/-- Line 74: `str(result)[:100] + "..." if len(str(result)) > 100 else
str(result)`. -/
def truncResult (r : String) : String :=
  if 100 < r.length then pyTake r 100 ++ "..." else r

/-- `history[-5:] if len(history) > 5 else history` (line 70). -/
def lastFive (history : List HistoryEntry) : List HistoryEntry :=
  if 5 < history.length then history.drop (history.length - 5) else history

/-- One rendered history line (line 75), numbering from 1. -/
def histLine (i : Nat) (e : HistoryEntry) : String :=
  toString i ++ ". " ++ e.action ++ "(" ++ pyReprArgs e.args ++ ") -> " ++
    truncResult e.result ++ "\n"

/-- The `EXECUTION HISTORY` section (lines 65-75): the explicit
"No previous actions taken." line when the history is empty, else the last
5 entries rendered. -/
def historySection (history : List HistoryEntry) : String :=
  "EXECUTION HISTORY:\n" ++
    (if history.isEmpty then "No previous actions taken.\n"
     else strJoin ((lastFive history).enum.map (fun p => histLine (p.1 + 1) p.2)))

/-- The context section (lines 78-80): empty string when `context` is empty
(the section is omitted, not rendered with a placeholder). -/
def contextSection (context : String) : String :=
  if context = "" then "" else "\nRELEVANT CONTEXT:\n" ++ context ++ "\n"

/-- The fixed tail of the prompt template after the context section
(prompt_engine.py lines 90-114), byte for byte (note the trailing space on
the `"tool"` example line). -/
def promptTail : String :=
  "\n\nRESPONSE FORMAT:\n" ++
  "You MUST respond with valid JSON containing exactly these fields:\n" ++
  "\x7b\n" ++
  "    \"thought\": \"Your reasoning about what to do next\",\n" ++
  "    \"tool\": \"exact_tool_name_from_list_above\", \n" ++
  "    \"args\": \x7b\"param1\": \"value1\", \"param2\": \"value2\"\x7d\n" ++
  "\x7d\n\n" ++
  "CRITICAL RULES:\n" ++
  "1. Tool name must EXACTLY match one from the available tools list\n" ++
  "2. Use proper JSON formatting with double quotes\n" ++
  "3. Think step-by-step before acting\n" ++
  "4. Avoid repeating failed actions\n" ++
  "5. If unsure about tool names, use \x27no_op\x27 to explain the issue\n" ++
  "6. Use \x27finish\x27 when the goal is fully accomplished\n\n" ++
  "EXAMPLES:\n" ++
  "- To list files: \x7b\"thought\": \"I need to see what files are available\", \"tool\": \"list_directory\", \"args\": \x7b\"directory_path\": \".\"\x7d\x7d\n" ++
  "- To read a file: \x7b\"thought\": \"I should examine this file\", \"tool\": \"search_file\", \"args\": \x7b\"file_path\": \"example.txt\"\x7d\x7d\n" ++
  "- To create directory: \x7b\"thought\": \"I need to create a directory for my project\", \"tool\": \"create_directory\", \"args\": \x7b\"directory_path\": \"my_project\"\x7d\x7d\n" ++
  "- To create file: \x7b\"thought\": \"I need to create a Python file\", \"tool\": \"create_file\", \"args\": \x7b\"file_path\": \"main.py\", \"content\": \"print(\x27Hello World\x27)\"\x7d\x7d\n" ++
  "- To modify file: \x7b\"thought\": \"I need to update this file\", \"tool\": \"modify_file\", \"args\": \x7b\"file_path\": \"config.py\", \"new_content\": \"config = \x7b\x27debug\x27: True\x7d\"\x7d\x7d\n" ++
  "- To get memory stats: \x7b\"thought\": \"I need to check memory statistics\", \"tool\": \"get_memory_statistics\", \"args\": \x7b\x7d\x7d\n\n" ++
  "What is your next action to achieve the goal?"

/-- `PromptEngine.create_enhanced_prompt(goal, history, available_tools,
context)`: total string assembly (never raises on empty history or empty
context by construction). -/
def create_enhanced_prompt (goal : String) (history : List HistoryEntry)
    (available_tools : List String) (context : String) : String :=
  ("You are an intelligent autonomous agent designed to achieve goals through systematic tool execution.\n\nGOAL: "
      ++ goal ++ "\n\n")
    ++ toolsSection available_tools ++ "\n"
    ++ historySection history
    ++ (contextSection context ++ promptTail)

/-- C7 counterexample: with an empty memory context the context section is
the empty string — the produced prompt does not contain the
"RELEVANT CONTEXT" header at all (the claim says an explicit "none" line is
rendered under the header instead of the section being omitted). -/
theorem create_enhanced_prompt_context_omitted :
    contextSection "" = "" ∧
    ¬ SubStr "RELEVANT CONTEXT"
        (create_enhanced_prompt "Say hi" [] ["no_op", "finish"] "") :=
  ⟨rfl, by decide⟩

/-- C7 (amended): the prompt builder is a total function; an empty history
renders the explicit "No previous actions taken." line under the EXECUTION
HISTORY header; an empty memory context yields an empty context section
(the RELEVANT CONTEXT section is omitted, not rendered with a "none"
line), while a non-empty context appears verbatim under its header; each of
the last 5 history entries is rendered as its numbered line, whose result
is truncated to 100 characters plus an ellipsis marker exactly when longer
than 100 characters. -/
theorem create_enhanced_prompt_spec (goal context r : String)
    (history : List HistoryEntry) (tools : List String) (i : Nat)
    (e : HistoryEntry) :
    (history.isEmpty = true →
      SubStr "EXECUTION HISTORY:\nNo previous actions taken.\n"
        (create_enhanced_prompt goal history tools context)) ∧
    contextSection "" = "" ∧
    (context ≠ "" →
      SubStr ("\nRELEVANT CONTEXT:\n" ++ context ++ "\n")
        (create_enhanced_prompt goal history tools context)) ∧
    ((i, e) ∈ (lastFive history).enum →
      SubStr (histLine (i + 1) e)
        (create_enhanced_prompt goal history tools context)) ∧
    (100 < r.length → truncResult r = pyTake r 100 ++ "...") ∧
    (r.length ≤ 100 → truncResult r = r) := by
  refine ⟨?_, rfl, ?_, ?_, ?_, ?_⟩
  · intro h
    have hsec : historySection history =
        "EXECUTION HISTORY:\n" ++ "No previous actions taken.\n" := by
      simp [historySection, h]
    have base : SubStr (historySection history)
        (create_enhanced_prompt goal history tools context) := by
      unfold create_enhanced_prompt
      exact ((SubStr.rfl _).appendLeft _).appendRight _
    rw [hsec] at base
    exact base
  · intro hc
    have hcs : contextSection context =
        "\nRELEVANT CONTEXT:\n" ++ context ++ "\n" := by
      simp [contextSection, hc]
    have h1 : SubStr ("\nRELEVANT CONTEXT:\n" ++ context ++ "\n")
        (contextSection context ++ promptTail) := by
      rw [hcs]; exact (SubStr.rfl _).appendRight _
    unfold create_enhanced_prompt
    exact h1.appendLeft _
  · intro hp
    have hne : history.isEmpty = false := by
      cases hh : history.isEmpty
      · rfl
      · exfalso
        have hnil : history = [] := List.isEmpty_iff.mp hh
        rw [hnil] at hp
        simp [lastFive] at hp
    have hsec : historySection history = "EXECUTION HISTORY:\n" ++
        strJoin ((lastFive history).enum.map (fun p => histLine (p.1 + 1) p.2)) := by
      simp [historySection, hne]
    have hmem : histLine (i + 1) e ∈
        (lastFive history).enum.map (fun p => histLine (p.1 + 1) p.2) :=
      List.mem_map.mpr ⟨(i, e), hp, rfl⟩
    have h1 : SubStr (histLine (i + 1) e) (historySection history) := by
      rw [hsec]; exact (SubStr_of_mem_strJoin hmem).appendLeft _
    unfold create_enhanced_prompt
    exact (h1.appendLeft _).appendRight _
  · intro h; simp [truncResult, h]
  · intro h; simp [truncResult, Nat.not_lt.mpr h]

/-- A 150-character result string used in the C7 witness. -/
def longResult : String := strJoin (List.replicate 30 "abcde")

/-- A history entry with an over-long result used in the C7 witness. -/
def longEntry : HistoryEntry :=
  ⟨"search_file", [("file_path", Jv.str "a.txt")], longResult⟩

/-- C7 witness: the amended prompt-builder properties exercised at concrete
inputs — empty history renders its explicit line, a non-empty context is
rendered under its header, the (single) last history entry's numbered line
appears in the prompt, and the 150-character result is truncated to 100
characters plus the ellipsis marker. -/
theorem create_enhanced_prompt_spec_witness :
    (([] : List HistoryEntry).isEmpty = true ∧
      SubStr "EXECUTION HISTORY:\nNo previous actions taken.\n"
        (create_enhanced_prompt "Say hi" [] ["no_op", "finish"] "notes")) ∧
    (("notes" : String) ≠ "" ∧
      SubStr ("\nRELEVANT CONTEXT:\n" ++ "notes" ++ "\n")
        (create_enhanced_prompt "Say hi" [] ["no_op", "finish"] "notes")) ∧
    ((0, longEntry) ∈ (lastFive [longEntry]).enum ∧
      SubStr (histLine 1 longEntry)
        (create_enhanced_prompt "Say hi" [longEntry] ["no_op", "finish"] "")) ∧
    (100 < longResult.length ∧
      truncResult longResult = pyTake longResult 100 ++ "...") :=
  ⟨⟨rfl, (create_enhanced_prompt_spec "Say hi" "notes" "" [] ["no_op", "finish"]
      0 longEntry).1 rfl⟩,
   ⟨by decide, (create_enhanced_prompt_spec "Say hi" "notes" "" []
      ["no_op", "finish"] 0 longEntry).2.2.1 (by decide)⟩,
   ⟨by show (0, longEntry) ∈ [(0, longEntry)]; exact List.mem_singleton.mpr rfl,
    (create_enhanced_prompt_spec "Say hi" "" "" [longEntry]
      ["no_op", "finish"] 0 longEntry).2.2.2.1
      (by show (0, longEntry) ∈ [(0, longEntry)]; exact List.mem_singleton.mpr rfl)⟩,
   ⟨by decide, (create_enhanced_prompt_spec "Say hi" "" longResult []
      ["no_op", "finish"] 0 longEntry).2.2.2.2.1 (by decide)⟩⟩

/-! ## Clarification handling in the execute loop (`Agent.execute`,
agent.py lines 88-236).  `execute(goal)` keeps two copies of the goal: the
local parameter `goal` (used to build every step's prompt, lines 127-132)
and the attribute `self.goal` (set at line 91, re-read by the finish/no_op
memory writes).  The no_op clarification handler (lines 207-218) appends
the operator's addendum to `self.goal` only — the local `goal` is never
reassigned, so subsequent prompts are built from the original text. -/

/-- The goal-relevant part of the loop state. -/
structure ExecState where
  goal_param : String
  self_goal : String
  history : List HistoryEntry

/-- Entry to `execute(goal)`: history cleared, `self.goal = goal`
(agent.py lines 90-91). -/
def execInit (goal : String) : ExecState := ⟨goal, goal, []⟩

/-- The no_op branch (agent.py lines 207-218): a non-empty operator
response appends `"\n" + response` to `self.goal` and the loop continues
(`some`); an empty response ends the run (`none`). -/
def noOpClarify (s : ExecState) (response : String) : Option ExecState :=
  if response ≠ "" then
    some { s with self_goal := s.self_goal ++ "\n" ++ response }
  else none

/-- The prompt built for the next step (agent.py lines 127-132):
`create_enhanced_prompt(goal=goal, ...)` reads the *local* `goal`
parameter, not `self.goal`. -/
def nextStepPrompt (s : ExecState) (available_tools : List String)
    (context : String) : String :=
  create_enhanced_prompt s.goal_param s.history available_tools context

/-- C6 (code bug): a non-empty clarification after a no_op is appended to
`self.goal` and the loop continues, and an empty clarification terminates
the run — but the prompt built for any subsequent step is *identical* to
the prompt built before the clarification, because prompts read the
untouched local `goal` parameter; concretely, after clarifying
"use python3" the next prompt does not contain the addendum. -/
theorem noOp_clarification_not_in_prompt (s s2 : ExecState) (response : String)
    (tools : List String) (ctx : String)
    (h : noOpClarify s response = some s2) :
    s2.goal_param = s.goal_param ∧ s2.history = s.history ∧
    s2.self_goal = s.self_goal ++ "\n" ++ response ∧
    nextStepPrompt s2 tools ctx = nextStepPrompt s tools ctx ∧
    noOpClarify s "" = none ∧
    ¬ SubStr "use python3"
        (nextStepPrompt
          (ExecState.mk "create a script" "create a script\nuse python3" [])
          ["no_op", "finish"] "") := by
  unfold noOpClarify at h
  by_cases hr : response ≠ ""
  · rw [if_pos hr] at h
    cases h
    refine ⟨rfl, rfl, rfl, rfl, ?_, by decide⟩
    simp [noOpClarify]
  · rw [if_neg hr] at h
    cases h

/-- C6 witness: the clarification theorem applied to the concrete run that
starts from goal "create a script" and receives the no_op clarification
"use python3". -/
theorem noOp_clarification_not_in_prompt_witness :
    noOpClarify (execInit "create a script") "use python3" =
      some (ExecState.mk "create a script" "create a script\nuse python3" []) ∧
    ((ExecState.mk "create a script" "create a script\nuse python3" []).goal_param
        = (execInit "create a script").goal_param ∧
     (ExecState.mk "create a script" "create a script\nuse python3" []).history
        = (execInit "create a script").history ∧
     (ExecState.mk "create a script" "create a script\nuse python3" []).self_goal
        = (execInit "create a script").self_goal ++ "\n" ++ "use python3" ∧
     nextStepPrompt (ExecState.mk "create a script" "create a script\nuse python3" [])
        availableTools "" = nextStepPrompt (execInit "create a script")
        availableTools "" ∧
     noOpClarify (execInit "create a script") "" = none ∧
     ¬ SubStr "use python3"
        (nextStepPrompt
          (ExecState.mk "create a script" "create a script\nuse python3" [])
          ["no_op", "finish"] "")) :=
  ⟨rfl, noOp_clarification_not_in_prompt (execInit "create a script")
    (ExecState.mk "create a script" "create a script\nuse python3" [])
    "use python3" availableTools "" rfl⟩

/-! ## Memory ids (`MemoryManager.store_memory`, memory.py lines 80-109, and
`MemoryManager.learn_from_error`, lines 151-173).  Both ids are
`hashlib.md5(...).hexdigest()` of an input string; MD5 is implemented below
over byte lists (`str.encode()` restricted to ASCII inputs, where UTF-8 is
the identity on code points) and validated against the standard test
vectors.  `datetime.now().isoformat()` is an explicit `now` parameter. -/


def md5K : List Nat :=
  [0xd76aa478, 0xe8c7b756, 0x242070db, 0xc1bdceee,
   0xf57c0faf, 0x4787c62a, 0xa8304613, 0xfd469501,
   0x698098d8, 0x8b44f7af, 0xffff5bb1, 0x895cd7be,
   0x6b901122, 0xfd987193, 0xa679438e, 0x49b40821,
   0xf61e2562, 0xc040b340, 0x265e5a51, 0xe9b6c7aa,
   0xd62f105d, 0x02441453, 0xd8a1e681, 0xe7d3fbc8,
   0x21e1cde6, 0xc33707d6, 0xf4d50d87, 0x455a14ed,
   0xa9e3e905, 0xfcefa3f8, 0x676f02d9, 0x8d2a4c8a,
   0xfffa3942, 0x8771f681, 0x6d9d6122, 0xfde5380c,
   0xa4beea44, 0x4bdecfa9, 0xf6bb4b60, 0xbebfbc70,
   0x289b7ec6, 0xeaa127fa, 0xd4ef3085, 0x04881d05,
   0xd9d4d039, 0xe6db99e5, 0x1fa27cf8, 0xc4ac5665,
   0xf4292244, 0x432aff97, 0xab9423a7, 0xfc93a039,
   0x655b59c3, 0x8f0ccc92, 0xffeff47d, 0x85845dd1,
   0x6fa87e4f, 0xfe2ce6e0, 0xa3014314, 0x4e0811a1,
   0xf7537e82, 0xbd3af235, 0x2ad7d2bb, 0xeb86d391]

def md5S : List Nat :=
  [7, 12, 17, 22, 7, 12, 17, 22, 7, 12, 17, 22, 7, 12, 17, 22,
   5, 9, 14, 20, 5, 9, 14, 20, 5, 9, 14, 20, 5, 9, 14, 20,
   4, 11, 16, 23, 4, 11, 16, 23, 4, 11, 16, 23, 4, 11, 16, 23,
   6, 10, 15, 21, 6, 10, 15, 21, 6, 10, 15, 21, 6, 10, 15, 21]

def rotl32 (x c : Nat) : Nat := ((x <<< c) % 4294967296) ||| (x >>> (32 - c))

def leBytes : Nat → Nat → List Nat
  | 0, _ => []
  | k + 1, n => (n % 256) :: leBytes k (n / 256)

def md5pad (msg : List Nat) : List Nat :=
  let len := msg.length
  let padLen := (119 - (len % 64)) % 64
  msg ++ [0x80] ++ List.replicate padLen 0 ++ leBytes 8 ((len * 8) % (2 ^ 64))

def chunk64Go : Nat → List Nat → List (List Nat)
  | 0, _ => []
  | _, [] => []
  | f + 1, l => l.take 64 :: chunk64Go f (l.drop 64)

def mword (chunk : List Nat) (g : Nat) : Nat :=
  chunk.getD (4 * g) 0 + chunk.getD (4 * g + 1) 0 * 256 +
    chunk.getD (4 * g + 2) 0 * 65536 + chunk.getD (4 * g + 3) 0 * 16777216

def md5F (i B C D : Nat) : Nat × Nat :=
  if i < 16 then ((B &&& C) ||| ((B ^^^ 0xffffffff) &&& D), i)
  else if i < 32 then ((D &&& B) ||| ((D ^^^ 0xffffffff) &&& C), (5 * i + 1) % 16)
  else if i < 48 then (B ^^^ C ^^^ D, (3 * i + 5) % 16)
  else (C ^^^ (B ||| (D ^^^ 0xffffffff)), (7 * i) % 16)

def md5Chunk (st : Nat × Nat × Nat × Nat) (chunk : List Nat) :
    Nat × Nat × Nat × Nat :=
  let step := fun (s : Nat × Nat × Nat × Nat) (i : Nat) =>
    let A := s.1
    let B := s.2.1
    let C := s.2.2.1
    let D := s.2.2.2
    let fg := md5F i B C D
    let F2 := (fg.1 + A + md5K.getD i 0 + mword chunk fg.2) % 4294967296
    (D, (B + rotl32 F2 (md5S.getD i 0)) % 4294967296, B, C)
  let r := (List.range 64).foldl step st
  ((st.1 + r.1) % 4294967296, (st.2.1 + r.2.1) % 4294967296,
   (st.2.2.1 + r.2.2.1) % 4294967296, (st.2.2.2 + r.2.2.2) % 4294967296)

def hexDigit (n : Nat) : Char :=
  if n < 10 then Char.ofNat (48 + n) else Char.ofNat (87 + n)

def hexByte (b : Nat) : List Char := [hexDigit (b / 16), hexDigit (b % 16)]

def hexLE32 (n : Nat) : List Char :=
  hexByte (n % 256) ++ hexByte (n / 256 % 256) ++ hexByte (n / 65536 % 256) ++
    hexByte (n / 16777216 % 256)

def md5hexOfBytes (msg : List Nat) : String :=
  let padded := md5pad msg
  let cs := chunk64Go (padded.length + 1) padded
  let st := cs.foldl md5Chunk (0x67452301, 0xefcdab89, 0x98badcfe, 0x10325476)
  ⟨hexLE32 st.1 ++ hexLE32 st.2.1 ++ hexLE32 st.2.2.1 ++ hexLE32 st.2.2.2⟩

/-- `hashlib.md5(s.encode()).hexdigest()` (ASCII fragment). -/
def pyMd5Hex (s : String) : String := md5hexOfBytes (s.data.map Char.toNat)

/-- Validation of the MD5 embedding against the standard test vectors
(RFC 1321), including a two-chunk input. -/
theorem pyMd5Hex_test_vectors :
    pyMd5Hex "" = "d41d8cd98f00b204e9800998ecf8427e" ∧
    pyMd5Hex "abc" = "900150983cd24fb0d6963f7d28e17f72" ∧
    pyMd5Hex "The quick brown fox jumps over the lazy dog" =
      "9e107d9d372bb6826bd81d3542a419d6" ∧
    pyMd5Hex (strJoin (List.replicate 20 "abcdefgh")) =
      "742c55d8197f96aeacfe8fc2883b0357" := by
  refine ⟨by decide, by decide, by decide, by decide⟩

/-- JSON string escaping of `json.dumps` (the characters arising in this
development; `ensure_ascii` escapes of non-ASCII code points are outside the
ASCII fragment modelled here). -/
def jsonEscapeChar (c : Char) : List Char :=
  if c = Char.ofNat 34 then [Char.ofNat 92, Char.ofNat 34]
  else if c = Char.ofNat 92 then [Char.ofNat 92, Char.ofNat 92]
  else if c = '\n' then [Char.ofNat 92, 'n']
  else if c = '\t' then [Char.ofNat 92, 't']
  else if c = '\x0d' then [Char.ofNat 92, 'r']
  else [c]

/-- `json.dumps` of a string value. -/
def jsonDumpStr (s : String) : String :=
  ⟨Char.ofNat 34 :: s.data.flatMap jsonEscapeChar ++ [Char.ofNat 34]⟩

/-- Insertion into a key-sorted association list (ascending key order, as
produced by `sort_keys=True`). -/
def insortKV (kv : String × Jv) : List (String × Jv) → List (String × Jv)
  | [] => [kv]
  | x :: xs => if strLtB kv.1 x.1 then kv :: x :: xs else x :: insortKV kv xs

/-- `json.dumps(value, sort_keys=True)` with the default separators
`", "` / `": "`, fuel-structural in the nesting depth. -/
def jsonDumpsF : Nat → Jv → String
  | 0, _ => ""
  | _ + 1, Jv.str s => jsonDumpStr s
  | _ + 1, Jv.num lexeme => lexeme
  | _ + 1, Jv.bool b => if b then "true" else "false"
  | _ + 1, Jv.null => "null"
  | f + 1, Jv.arr xs =>
    "[" ++ String.intercalate ", " (xs.map (jsonDumpsF f)) ++ "]"
  | f + 1, Jv.obj kvs =>
    "\x7b" ++ String.intercalate ", "
      ((kvs.foldr insortKV []).map
        (fun kv => jsonDumpStr kv.1 ++ ": " ++ jsonDumpsF f kv.2)) ++ "\x7d"

/-- `json.dumps(content, sort_keys=True)` for a content dict. -/
def jsonDumpsSorted (content : List (String × Jv)) : String :=
  jsonDumpsF 1000 (Jv.obj content)

/-- The string hashed by `store_memory` (memory.py lines 84-87):
`f"{category}_{json.dumps(content, sort_keys=True)}_{datetime.now()
.isoformat()}"` — note the timestamp inside the hash input. -/
def store_memory_hash_input (category : String) (content : List (String × Jv))
    (now : String) : String :=
  category ++ "_" ++ jsonDumpsSorted content ++ "_" ++ now

/-- The memory id computed by `store_memory`. -/
def store_memory_id (category : String) (content : List (String × Jv))
    (now : String) : String :=
  pyMd5Hex (store_memory_hash_input category content now)

/-- The error-pattern id computed by `learn_from_error` (memory.py line
154): `md5(f"{error_type}_{error_context}")` — no timestamp. -/
def learn_from_error_id (error_type error_context : String) : String :=
  pyMd5Hex (error_type ++ "_" ++ error_context)

/-- `INSERT OR REPLACE` keyed on a TEXT PRIMARY KEY id: replace the row in
place when the id exists, else append. -/
def insert_or_replace (tbl : List (String × String)) (k v : String) :
    List (String × String) :=
  if (tbl.map Prod.fst).contains k then
    tbl.map (fun p => if p.1 = k then (k, v) else p)
  else tbl ++ [(k, v)]

theorem contains_insert_or_replace (tbl : List (String × String)) (k v : String) :
    ((insert_or_replace tbl k v).map Prod.fst).contains k = true := by
  unfold insert_or_replace
  cases hc : (tbl.map Prod.fst).contains k with
  | true =>
    simp only [hc, if_true]
    have hmem : k ∈ tbl.map Prod.fst := by simpa using hc
    obtain ⟨p, hp, hpk⟩ := List.mem_map.mp hmem
    have : (k : String) ∈
        (tbl.map (fun p => if p.1 = k then (k, v) else p)).map Prod.fst :=
      List.mem_map.mpr ⟨(k, v), List.mem_map.mpr ⟨p, hp, by simp [hpk]⟩, rfl⟩
    simpa using this
  | false => simp [hc]

theorem insert_or_replace_length_of_contains (tbl : List (String × String))
    (k v : String) (h : (tbl.map Prod.fst).contains k = true) :
    (insert_or_replace tbl k v).length = tbl.length := by
  unfold insert_or_replace
  rw [if_pos h]
  simp

/-- C9 counterexample: two `store_memory` calls with identical category and
content but one second apart hash different input strings to different ids
(both digests checked against the reference implementation), so the second
store inserts a second row instead of idempotently re-storing. -/
theorem store_memory_id_time_dependent :
    store_memory_id "execution" [("goal", Jv.str "g"), ("step", Jv.num "1")]
        "2024-01-01T00:00:00" = "9ebf76ebececdfe6c04d0a053af6f0bf" ∧
    store_memory_id "execution" [("goal", Jv.str "g"), ("step", Jv.num "1")]
        "2024-01-01T00:00:01" = "7cdaa9de0a33b053d4e64bec32a275c9" ∧
    store_memory_id "execution" [("goal", Jv.str "g"), ("step", Jv.num "1")]
        "2024-01-01T00:00:00" ≠
      store_memory_id "execution" [("goal", Jv.str "g"), ("step", Jv.num "1")]
        "2024-01-01T00:00:01" ∧
    (insert_or_replace (insert_or_replace []
        (store_memory_id "execution" [("goal", Jv.str "g"), ("step", Jv.num "1")]
          "2024-01-01T00:00:00") "row1")
        (store_memory_id "execution" [("goal", Jv.str "g"), ("step", Jv.num "1")]
          "2024-01-01T00:00:01") "row2").length = 2 := by
  refine ⟨by decide, by decide, by decide, by decide⟩

/-- C9 (amended): `store_memory` ids are derived from category, content
*and the current timestamp* — for fixed category and content, distinct
timestamps give distinct hash inputs, so identical stores at different
times are two rows, not an idempotent re-store; `learn_from_error` ids are
a deterministic hash of `(error_type, error_context)` alone, and its
re-store with the same key overwrites in place, leaving the row count
unchanged. -/
theorem memory_id_semantics (cat et ec et2 ec2 now now2 v v2 : String)
    (content : List (String × Jv)) (tbl : List (String × String))
    (hnow : now ≠ now2) (het : et = et2) (hec : ec = ec2) :
    store_memory_hash_input cat content now ≠
      store_memory_hash_input cat content now2 ∧
    learn_from_error_id et ec = learn_from_error_id et2 ec2 ∧
    (insert_or_replace (insert_or_replace tbl (learn_from_error_id et ec) v)
        (learn_from_error_id et ec) v2).length =
      (insert_or_replace tbl (learn_from_error_id et ec) v).length := by
  refine ⟨?_, by rw [het, hec], ?_⟩
  · intro h
    apply hnow
    apply String.ext
    have h2 := congrArg String.data h
    unfold store_memory_hash_input at h2
    simp only [String.data_append, List.append_assoc] at h2
    exact List.append_cancel_left (List.append_cancel_left
      (List.append_cancel_left (List.append_cancel_left h2)))
  · exact insert_or_replace_length_of_contains _ _ _
      (contains_insert_or_replace tbl (learn_from_error_id et ec) v)

/-- C9 witness: the amended-claim theorem applied at concrete category,
content, timestamps one second apart, error key and table. -/
theorem memory_id_semantics_witness :
    ("2024-01-01T00:00:00" : String) ≠ "2024-01-01T00:00:01" ∧
    (store_memory_hash_input "execution" [("goal", Jv.str "g")]
        "2024-01-01T00:00:00" ≠
      store_memory_hash_input "execution" [("goal", Jv.str "g")]
        "2024-01-01T00:00:01" ∧
    learn_from_error_id "timeout" "call to ollama timed out" =
      learn_from_error_id "timeout" "call to ollama timed out" ∧
    (insert_or_replace (insert_or_replace []
        (learn_from_error_id "timeout" "call to ollama timed out") "sol1")
        (learn_from_error_id "timeout" "call to ollama timed out") "sol2").length =
      (insert_or_replace []
        (learn_from_error_id "timeout" "call to ollama timed out") "sol1").length) :=
  ⟨by decide,
   memory_id_semantics "execution" "timeout" "call to ollama timed out"
     "timeout" "call to ollama timed out" "2024-01-01T00:00:00"
     "2024-01-01T00:00:01" "sol1" "sol2" [("goal", Jv.str "g")] []
     (by decide) rfl rfl⟩

/-! ## Response interpreter (`PromptEngine.parse_response`,
prompt_engine.py lines 118-184).  `json.loads` is embedded as a
fuel-structural recursive-descent parser producing `Jv` (strict JSON plus
Python's `NaN`/`Infinity`/`-Infinity` constants; numeric lexemes are kept
verbatim; object keys overwrite last-wins; `\uXXXX` escapes map single BMP
code points).  Error strings describe the failure structurally rather than
reproducing CPython's message/position texts — no claim depends on the text
of intermediate error entries.  The regex scans of the source
(brace-balanced objects, fenced code blocks, `"thought"`/`"tool"`/`"args"`
extraction, and the clean-up substitutions) are emulated by direct
character scans with the same leftmost, non-overlapping match semantics. -/

def lbrace : Char := Char.ofNat 123

def rbrace : Char := Char.ofNat 125

def qt : Char := Char.ofNat 34

/-- JSON inter-token whitespace of `json.loads`. -/
def jsonWs (c : Char) : Bool :=
  c = ' ' || c = '\t' || c = '\n' || c = '\x0d'

def skipJsonWs (l : List Char) : List Char := l.dropWhile jsonWs

def hexVal (c : Char) : Option Nat :=
  let n := c.toNat
  if 48 ≤ n ∧ n ≤ 57 then some (n - 48)
  else if 97 ≤ n ∧ n ≤ 102 then some (n - 87)
  else if 65 ≤ n ∧ n ≤ 70 then some (n - 55)
  else none

/-- JSON string body parser, positioned after the opening quote; `acc` is
the decoded content in reverse. -/
def parseJsonStringGo : Nat → List Char → List Char →
    Except String (String × List Char)
  | 0, _, _ => .error "Unterminated string"
  | _ + 1, _, [] => .error "Unterminated string"
  | fuel + 1, acc, c :: rest =>
    if c = qt then .ok (⟨acc.reverse⟩, rest)
    else if c = '\\' then
      match rest with
      | [] => .error "Unterminated string"
      | e :: r2 =>
        if e = qt then parseJsonStringGo fuel (qt :: acc) r2
        else if e = '\\' then parseJsonStringGo fuel ('\\' :: acc) r2
        else if e = '/' then parseJsonStringGo fuel ('/' :: acc) r2
        else if e = 'b' then parseJsonStringGo fuel (Char.ofNat 8 :: acc) r2
        else if e = 'f' then parseJsonStringGo fuel (Char.ofNat 12 :: acc) r2
        else if e = 'n' then parseJsonStringGo fuel ('\n' :: acc) r2
        else if e = 'r' then parseJsonStringGo fuel (Char.ofNat 13 :: acc) r2
        else if e = 't' then parseJsonStringGo fuel ('\t' :: acc) r2
        else if e = 'u' then
          match r2 with
          | h1 :: h2 :: h3 :: h4 :: r3 =>
            match hexVal h1, hexVal h2, hexVal h3, hexVal h4 with
            | some a, some b, some c2, some d =>
              parseJsonStringGo fuel
                (Char.ofNat (a * 4096 + b * 256 + c2 * 16 + d) :: acc) r3
            | _, _, _, _ => .error "Invalid \\uXXXX escape"
          | _ => .error "Invalid \\uXXXX escape"
        else .error "Invalid \\escape"
    else if c.toNat < 32 then .error "Invalid control character"
    else parseJsonStringGo fuel (c :: acc) rest

/-- JSON number lexeme: `-?(0|[1-9][0-9]*)(\.[0-9]+)?([eE][+-]?[0-9]+)?`,
returned verbatim. -/
def parseJsonNumber (l : List Char) : Except String (String × List Char) :=
  let sign : List Char × List Char :=
    match l with
    | '-' :: r => (['-'], r)
    | _ => ([], l)
  match sign.2 with
  | [] => .error "Expecting value"
  | c :: r1 =>
    if ¬ c.isDigit then .error "Expecting value"
    else
      let intPart : List Char × List Char :=
        if c = '0' then (['0'], r1)
        else
          let ds := (c :: r1).takeWhile Char.isDigit
          (ds, (c :: r1).drop ds.length)
      let fracPart : List Char × List Char :=
        match intPart.2 with
        | '.' :: d :: r2 =>
          if d.isDigit then
            let ds := (d :: r2).takeWhile Char.isDigit
            ('.' :: ds, (d :: r2).drop ds.length)
          else ([], intPart.2)
        | _ => ([], intPart.2)
      let expPart : List Char × List Char :=
        match fracPart.2 with
        | e :: r2 =>
          if e = 'e' ∨ e = 'E' then
            match r2 with
            | s :: d :: r3 =>
              if (s = '+' ∨ s = '-') ∧ d.isDigit then
                let ds := (d :: r3).takeWhile Char.isDigit
                (e :: s :: ds, (d :: r3).drop ds.length)
              else if s.isDigit then
                let ds := (s :: d :: r3).takeWhile Char.isDigit
                (e :: ds, (s :: d :: r3).drop ds.length)
              else ([], fracPart.2)
            | [s] =>
              if s.isDigit then (e :: [s], []) else ([], fracPart.2)
            | [] => ([], fracPart.2)
          else ([], fracPart.2)
        | [] => ([], fracPart.2)
      .ok (⟨sign.1 ++ intPart.1 ++ fracPart.1 ++ expPart.1⟩, expPart.2)

/-- Last-wins insertion for duplicate object keys (Python dict update). -/
def objInsert (kvs : List (String × Jv)) (k : String) (v : Jv) :
    List (String × Jv) :=
  if (kvs.map Prod.fst).contains k then
    kvs.map (fun p => if p.1 = k then (k, v) else p)
  else kvs ++ [(k, v)]

/-- Array elements: called at a value position after `[` (non-empty case);
`pv` parses one value. -/
def parseArrGo (pv : List Char → Except String (Jv × List Char)) :
    Nat → List Jv → List Char → Except String (Jv × List Char)
  | 0, _, _ => .error "Recursion limit"
  | fuel + 1, acc, l =>
    match pv l with
    | .error e => .error e
    | .ok (v, rest) =>
      let r1 := skipJsonWs rest
      match r1 with
      | [] => .error "Expecting \x27,\x27 delimiter"
      | c :: r2 =>
        if c = ']' then .ok (Jv.arr (acc ++ [v]), r2)
        else if c = ',' then parseArrGo pv fuel (acc ++ [v]) r2
        else .error "Expecting \x27,\x27 delimiter"

/-- Object members: called at a key position after `\x7b` (non-empty case). -/
def parseObjGo (pv : List Char → Except String (Jv × List Char)) :
    Nat → List (String × Jv) → List Char → Except String (Jv × List Char)
  | 0, _, _ => .error "Recursion limit"
  | fuel + 1, acc, l =>
    let l1 := skipJsonWs l
    match l1 with
    | [] => .error "Expecting property name enclosed in double quotes"
    | c :: rest =>
      if c = qt then
        match parseJsonStringGo (rest.length + 1) [] rest with
        | .error e => .error e
        | .ok (key, r2) =>
          let r3 := skipJsonWs r2
          match r3 with
          | [] => .error "Expecting \x27:\x27 delimiter"
          | c2 :: r4 =>
            if c2 = ':' then
              match pv r4 with
              | .error e => .error e
              | .ok (v, r5) =>
                let acc2 := objInsert acc key v
                let r6 := skipJsonWs r5
                match r6 with
                | [] => .error "Expecting \x27,\x27 delimiter"
                | c3 :: r7 =>
                  if c3 = rbrace then .ok (Jv.obj acc2, r7)
                  else if c3 = ',' then parseObjGo pv fuel acc2 r7
                  else .error "Expecting \x27,\x27 delimiter"
            else .error "Expecting \x27:\x27 delimiter"
      else .error "Expecting property name enclosed in double quotes"

/-- One JSON value at a value position (leading whitespace allowed). -/
def parseValueF : Nat → List Char → Except String (Jv × List Char)
  | 0, _ => .error "Recursion limit"
  | fuel + 1, l =>
    let l1 := skipJsonWs l
    match l1 with
    | [] => .error "Expecting value"
    | c :: rest =>
      if c = qt then
        match parseJsonStringGo (rest.length + 1) [] rest with
        | .error e => .error e
        | .ok (s, r2) => .ok (Jv.str s, r2)
      else if c = lbrace then
        let r1 := skipJsonWs rest
        match r1 with
        | c2 :: r2 =>
          if c2 = rbrace then .ok (Jv.obj [], r2)
          else parseObjGo (parseValueF fuel) (r1.length + 1) [] r1
        | [] => .error "Expecting property name enclosed in double quotes"
      else if c = '[' then
        let r1 := skipJsonWs rest
        match r1 with
        | c2 :: r2 =>
          if c2 = ']' then .ok (Jv.arr [], r2)
          else parseArrGo (parseValueF fuel) (r1.length + 1) [] r1
        | [] => .error "Expecting value"
      else if "true".data.isPrefixOf l1 then .ok (Jv.bool true, l1.drop 4)
      else if "false".data.isPrefixOf l1 then .ok (Jv.bool false, l1.drop 5)
      else if "null".data.isPrefixOf l1 then .ok (Jv.null, l1.drop 4)
      else if "NaN".data.isPrefixOf l1 then .ok (Jv.num "NaN", l1.drop 3)
      else if "Infinity".data.isPrefixOf l1 then .ok (Jv.num "Infinity", l1.drop 8)
      else if "-Infinity".data.isPrefixOf l1 then
        .ok (Jv.num "-Infinity", l1.drop 9)
      else
        match parseJsonNumber l1 with
        | .error e => .error e
        | .ok (lex, r2) => .ok (Jv.num lex, r2)

/-- `json.loads`: one value, then only whitespace may remain. -/
def jsonLoads (s : String) : Except String Jv :=
  match parseValueF (s.data.length + 1) s.data with
  | .error e => .error e
  | .ok (v, rest) =>
    if (skipJsonWs rest).isEmpty then .ok v else .error "Extra data"

/-- Python `\w` (ASCII fragment). -/
def isWordChar (c : Char) : Bool := c.isAlphanum || c = '_'

/-- `re.sub(r'^```(?:json)?\s*', '', ...)` with IGNORECASE: at most one
removal, anchored at the start. -/
def cleanLeadingFence (l : List Char) : List Char :=
  if "```".data.isPrefixOf l then
    let r := l.drop 3
    let r := if (r.take 4).map Char.toLower = "json".data then r.drop 4 else r
    r.dropWhile isPySpace
  else l

/-- `re.sub(r'\s*```$', '', ...)`: the input has already been stripped, so
`$` can only match at the very end — remove a trailing fence and the
whitespace run before it. -/
def cleanTrailingFence (l : List Char) : List Char :=
  if 3 ≤ l.length ∧ l.drop (l.length - 3) = "```".data then
    ((l.take (l.length - 3)).reverse.dropWhile isPySpace).reverse
  else l

/-- `re.sub(r'([{,]\s*)(\w+)(\s*:)', r'\1"\2"\3', ...)`: quote bare object
keys, scanning left to right with non-overlapping matches, resuming after
each replacement. -/
def quoteBareKeys : Nat → List Char → List Char
  | 0, l => l
  | fuel + 1, l =>
    match l with
    | [] => []
    | c :: rest =>
      if c = lbrace ∨ c = ',' then
        let ws1 := rest.takeWhile isPySpace
        let r1 := rest.drop ws1.length
        let word := r1.takeWhile isWordChar
        if word.isEmpty then c :: quoteBareKeys fuel rest
        else
          let r2 := r1.drop word.length
          let ws2 := r2.takeWhile isPySpace
          let r3 := r2.drop ws2.length
          match r3 with
          | c2 :: r4 =>
            if c2 = ':' then
              c :: (ws1 ++ [qt] ++ word ++ [qt] ++ ws2 ++ ':' :: quoteBareKeys fuel r4)
            else c :: quoteBareKeys fuel rest
          | [] => c :: quoteBareKeys fuel rest
      else c :: quoteBareKeys fuel rest

/-- `re.sub(r',(\s*[}\]])', r'\1', ...)`: drop trailing commas, resuming
after each replaced bracket. -/
def removeTrailingCommas : Nat → List Char → List Char
  | 0, l => l
  | fuel + 1, l =>
    match l with
    | [] => []
    | c :: rest =>
      if c = ',' then
        let ws := rest.takeWhile isPySpace
        let r1 := rest.drop ws.length
        match r1 with
        | c2 :: r2 =>
          if c2 = rbrace ∨ c2 = ']' then
            ws ++ c2 :: removeTrailingCommas fuel r2
          else c :: removeTrailingCommas fuel rest
        | [] => c :: removeTrailingCommas fuel rest
      else c :: removeTrailingCommas fuel rest

/-- `PromptEngine._clean_json_string` (lines 186-201): strip, remove fence
markers, quote bare keys, drop trailing commas. -/
def clean_json_string (json_str : String) : String :=
  let l := (pyStrip json_str).data
  let l := cleanLeadingFence l
  let l := cleanTrailingFence l
  let l := quoteBareKeys (l.length + 1) l
  let l := removeTrailingCommas (l.length + 1) l
  ⟨l⟩

/-- One match attempt of the brace pattern
`\{[^\x7b\x7d]*(?:\{[^\x7b\x7d]*\}[^\x7b\x7d]*)*\}` starting right after an
opening brace; `acc` carries the consumed characters (in order). -/
def m1Go : Nat → List Char → List Char → Option (List Char × List Char)
  | 0, _, _ => none
  | fuel + 1, acc, l =>
    let nb := l.takeWhile (fun c => ¬ (c = lbrace ∨ c = rbrace))
    let r := l.drop nb.length
    match r with
    | [] => none
    | c :: rest =>
      if c = rbrace then some (acc ++ nb ++ [rbrace], rest)
      else
        let nb2 := rest.takeWhile (fun c => ¬ (c = lbrace ∨ c = rbrace))
        let r2 := rest.drop nb2.length
        match r2 with
        | c2 :: r2t =>
          if c2 = rbrace then
            m1Go fuel (acc ++ nb ++ [lbrace] ++ nb2 ++ [rbrace]) r2t
          else none
        | [] => none

/-- Method 1 (line 130): `re.findall` of the one-level brace-balanced
pattern — leftmost, non-overlapping matches. -/
def m1Findall : Nat → List Char → List String
  | 0, _ => []
  | _, [] => []
  | fuel + 1, c :: rest =>
    if c = lbrace then
      match m1Go (rest.length + 1) [lbrace] rest with
      | some (m, after) => (⟨m⟩ : String) :: m1Findall fuel after
      | none => m1Findall fuel rest
    else m1Findall fuel rest

/-- Find the non-greedy closing brace of method 2: the earliest `\x7d` that
is followed (after a whitespace run) by a closing fence. -/
def m2FindClose : Nat → List Char → List Char → Option (List Char × List Char)
  | 0, _, _ => none
  | fuel + 1, acc, l =>
    match l with
    | [] => none
    | c :: rest =>
      if c = rbrace then
        let ws := rest.takeWhile isPySpace
        let r2 := rest.drop ws.length
        if "```".data.isPrefixOf r2 then some (acc ++ [rbrace], r2.drop 3)
        else m2FindClose fuel (acc ++ [c]) rest
      else m2FindClose fuel (acc ++ [c]) rest

/-- One match attempt of ```` ```(?:json)?\s*(\{.*?\})\s*``` ```` (DOTALL,
IGNORECASE) at a position starting with a fence. -/
def m2MatchAt (l : List Char) : Option (List Char × List Char) :=
  let r := l.drop 3
  let r := if (r.take 4).map Char.toLower = "json".data then r.drop 4 else r
  let r1 := r.dropWhile isPySpace
  match r1 with
  | c :: rest =>
    if c = lbrace then m2FindClose (rest.length + 1) [lbrace] rest else none
  | [] => none

/-- Method 2 (line 135): fenced code blocks, group 1 of each match. -/
def m2Findall : Nat → List Char → List String
  | 0, _ => []
  | _, [] => []
  | fuel + 1, l@(_ :: rest) =>
    if "```".data.isPrefixOf l then
      match m2MatchAt l with
      | some (g, after) => (⟨g⟩ : String) :: m2Findall fuel after
      | none => m2Findall fuel rest
    else m2Findall fuel rest

/-- The candidate list of `parse_response` (lines 127-141): brace matches,
then fenced-block matches, then the whole trimmed text when it is
brace-delimited. -/
def json_candidates (response_text : String) : List String :=
  m1Findall (response_text.data.length + 1) response_text.data
    ++ m2Findall (response_text.data.length + 1) response_text.data
    ++ (let st := pyStrip response_text
        if st.data.head? = some lbrace ∧ st.data.getLast? = some rbrace
        then [st] else [])

/-- `PromptEngine._validate_parsed_response` (lines 203-219). -/
def validate_parsed_response (parsed : Jv) : Bool :=
  match parsed with
  | Jv.obj fields =>
    (match (fields.find? (fun p => p.1 = "thought")).map Prod.snd with
     | some (Jv.str _) => true
     | _ => false) &&
    (match (fields.find? (fun p => p.1 = "tool")).map Prod.snd with
     | some (Jv.str _) => true
     | _ => false) &&
    (match (fields.find? (fun p => p.1 = "args")).map Prod.snd with
     | some (Jv.obj _) => true
     | some _ => false
     | none => true)
  | _ => false

/-- Whether one candidate decodes (after clean-up) to a structurally valid
object — the acceptance test of the candidate loop (lines 144-158). -/
def candidateAccepted (candidate : String) : Bool :=
  match jsonLoads (clean_json_string candidate) with
  | .ok parsed => validate_parsed_response parsed
  | .error _ => false

/-- The candidate loop (lines 143-158): first structurally valid hit wins
with an empty error list; failures accumulate error entries. -/
def tryCandidates : List String → List String → Option Jv × List String
  | [], errors => (none, errors)
  | c :: rest, errors =>
    match jsonLoads (clean_json_string c) with
    | .ok parsed =>
      if validate_parsed_response parsed then (some parsed, [])
      else tryCandidates rest
        (errors ++ ["Invalid response structure: " ++ pyReprJvF 1000 parsed])
    | .error e => tryCandidates rest
        (errors ++ ["JSON decode error in \x27" ++ pyTake c 50 ++ "...\x27: " ++ e])

/-- `re.search` of `key\s*"([^"]*)"` for a literal `key` such as
`"thought":` — the leftmost match's group, or `None`. -/
def extractQuoted (key : List Char) : Nat → List Char → Option String
  | 0, _ => none
  | _, [] => none
  | fuel + 1, l@(_ :: rest) =>
    if key.isPrefixOf l then
      let r := (l.drop key.length).dropWhile isPySpace
      match r with
      | c :: r2 =>
        if c = qt then
          let content := r2.takeWhile (fun c => ¬ c = qt)
          match r2.drop content.length with
          | _ :: _ => some ⟨content⟩
          | [] => extractQuoted key fuel rest
        else extractQuoted key fuel rest
      | [] => extractQuoted key fuel rest
    else extractQuoted key fuel rest

/-- `re.search(r'"thought":\s*"([^"]*)"', response_text)` (line 161). -/
def extract_thought (s : String) : Option String :=
  extractQuoted "\"thought\":".data (s.data.length + 1) s.data

/-- `re.search(r'"tool":\s*"([^"]*)"', response_text)` (line 162). -/
def extract_tool (s : String) : Option String :=
  extractQuoted "\"tool\":".data (s.data.length + 1) s.data

/-- `re.search(r'"args":\s*(\{[^\x7d]*\})', response_text)` (line 173):
the leftmost `"args":` whose value-looking braces close without nesting. -/
def extractArgsGo : Nat → List Char → Option String
  | 0, _ => none
  | _, [] => none
  | fuel + 1, l@(_ :: rest) =>
    if "\"args\":".data.isPrefixOf l then
      let r := (l.drop 7).dropWhile isPySpace
      match r with
      | c :: r2 =>
        if c = lbrace then
          let content := r2.takeWhile (fun c => ¬ c = rbrace)
          match r2.drop content.length with
          | _ :: _ => some ⟨lbrace :: content ++ [rbrace]⟩
          | [] => extractArgsGo fuel rest
        else extractArgsGo fuel rest
      | [] => extractArgsGo fuel rest
    else extractArgsGo fuel rest

def extract_args (s : String) : Option String :=
  extractArgsGo (s.data.length + 1) s.data

/-- The final error entry (line 183). -/
def parseFinalError (response_text : String) : String :=
  "Could not parse any valid JSON from response: " ++
    pyTake response_text 200 ++ "..."

/-- `PromptEngine.parse_response` (lines 118-184): total by construction —
every decode failure becomes an error-list entry. -/
def parse_response (response_text : String) : Option Jv × List String :=
  if response_text = "" ∨ pyStrip response_text = "" then
    (none, ["Empty response from model"])
  else
    match tryCandidates (json_candidates response_text) [] with
    | (some parsed, _) => (some parsed, [])
    | (none, errors) =>
      match extract_thought response_text, extract_tool response_text with
      | some th, some tl =>
        let args : Jv :=
          match extract_args response_text with
          | some a =>
            (match jsonLoads a with
             | .ok v => v
             | .error _ => Jv.obj [])
          | none => Jv.obj []
        let reconstructed := Jv.obj
          [("thought", Jv.str th), ("tool", Jv.str tl), ("args", args)]
        if validate_parsed_response reconstructed then
          (some reconstructed, ["Reconstructed from partial parse"])
        else (none, errors ++ [parseFinalError response_text])
      | _, _ => (none, errors ++ [parseFinalError response_text])

/-- If no candidate is accepted, the candidate loop returns `none` with some
accumulated error list. -/
theorem tryCandidates_none (cs : List String)
    (h : ∀ c ∈ cs, candidateAccepted c = false) :
    ∀ errs, ∃ e, tryCandidates cs errs = (none, e) := by
  induction cs with
  | nil => exact fun errs => ⟨errs, rfl⟩
  | cons c rest ih =>
    intro errs
    have hc := h c (by simp)
    unfold candidateAccepted at hc
    cases hj : jsonLoads (clean_json_string c) with
    | ok parsed =>
      rw [hj] at hc
      have hc2 : validate_parsed_response parsed = false := hc
      unfold tryCandidates
      rw [hj]
      show ∃ e, (if validate_parsed_response parsed = true
          then ((some parsed : Option Jv), ([] : List String))
          else tryCandidates rest
            (errs ++ ["Invalid response structure: " ++ pyReprJvF 1000 parsed]))
        = (none, e)
      rw [hc2]
      simp only [Bool.false_eq_true, if_false]
      exact ih (fun c2 hm => h c2 (List.mem_cons_of_mem c hm)) _
    | error e =>
      unfold tryCandidates
      rw [hj]
      exact ih (fun c2 hm => h c2 (List.mem_cons_of_mem c hm)) _

/-- C1 (amended): `parse_response` is total by construction; whenever no
JSON candidate decodes to a structurally valid object and the
thought/tool pair is not regex-recoverable, it returns `none` with a
non-empty error list, and — whenever the trimmed input is non-empty — the
final entry echoes at most 200 characters of the raw text; an empty or
whitespace-only input instead yields the single fixed entry
"Empty response from model" (no echo). -/
theorem parse_response_total_failure (s : String)
    (hcand : ∀ c ∈ json_candidates s, candidateAccepted c = false)
    (hpair : extract_thought s = none ∨ extract_tool s = none) :
    (parse_response s).1 = none ∧ (parse_response s).2 ≠ [] ∧
    (pyStrip s ≠ "" →
      (parse_response s).2.getLast? = some (parseFinalError s)) := by
  unfold parse_response
  by_cases hempty : s = "" ∨ pyStrip s = ""
  · rw [if_pos hempty]
    refine ⟨rfl, by simp, fun hns => absurd ?_ hns⟩
    rcases hempty with h1 | h2
    · rw [h1]; rfl
    · exact h2
  · rw [if_neg hempty]
    obtain ⟨e, he⟩ := tryCandidates_none (json_candidates s) hcand []
    rw [he]
    cases hth : extract_thought s with
    | none =>
      exact ⟨rfl, by show e ++ [parseFinalError s] ≠ []; simp,
        fun _ => by
          show (e ++ [parseFinalError s]).getLast? = some (parseFinalError s)
          exact List.getLast?_concat e⟩
    | some th =>
      rcases hpair with h1 | h2
      · rw [hth] at h1; cases h1
      · rw [h2]
        exact ⟨rfl, by show e ++ [parseFinalError s] ≠ []; simp,
          fun _ => by
            show (e ++ [parseFinalError s]).getLast? = some (parseFinalError s)
            exact List.getLast?_concat e⟩

/-- C1 counterexample: the whitespace-only raw string "\t" has no JSON
candidate and no regex-recoverable pair, and `parse_response` returns
`null` with a non-empty error list as claimed — but its single (hence
final) entry is the fixed string "Empty response from model", which does
not echo the raw text (its 200-character truncation "\t" does not occur in
the entry). -/
theorem parse_response_whitespace_no_echo :
    parse_response "\t" = (none, ["Empty response from model"]) ∧
    json_candidates "\t" = [] ∧
    extract_thought "\t" = none ∧
    ¬ SubStr (pyTake "\t" 200) "Empty response from model" :=
  ⟨rfl, rfl, rfl, by decide⟩

/-- C1 witness: the amended theorem applied to the raw string "hello"
(no candidates, no recoverable pair, non-empty after trimming). -/
theorem parse_response_total_failure_witness :
    json_candidates "hello" = [] ∧
    extract_thought "hello" = none ∧
    ((parse_response "hello").1 = none ∧ (parse_response "hello").2 ≠ [] ∧
     (pyStrip "hello" ≠ "" →
       (parse_response "hello").2.getLast? = some (parseFinalError "hello"))) :=
  ⟨rfl, rfl,
   parse_response_total_failure "hello"
     (fun c hc => by
       rw [show json_candidates "hello" = ([] : List String) from rfl] at hc
       cases hc)
     (Or.inl rfl)⟩

/-! ## Binary64 model of the step budgeter (claim C8).  The rational model
`complexityScore` above is exact; the running Python program uses IEEE-754
binary64.  Finite doubles are dyadic rationals `m * 2^e` with a 53-bit
significand; `flDy` rounds an exact dyadic to nearest, ties to even — the
binary64 rounding of every addition and multiplication below (all values
stay far inside the normal range, so overflow/underflow never arise).  The
decimal literals 0.1, 0.3 and 0.05 of the source are embedded as their
nearest doubles, proved nearest below. -/

/-- A dyadic rational `m * 2^e` (finite binary64 values and exact
intermediate sums/products). -/
structure Dy where
  m : ℤ
  e : ℤ
deriving DecidableEq

/-- Bit length of a natural number (fuel-structural; 256 bits covers every
value in this development). -/
def bitlenGo : Nat → Nat → Nat
  | 0, _ => 0
  | fuel + 1, n => if n = 0 then 0 else bitlenGo fuel (n / 2) + 1

def bitlen (n : Nat) : Nat := bitlenGo 256 n

/-- Round an exact dyadic to a 53-bit significand, nearest, ties to even —
IEEE-754 binary64 rounding for values in the normal range. -/
def flDy (d : Dy) : Dy :=
  let s := d.m.natAbs
  if s = 0 then ⟨0, 0⟩
  else
    let b := bitlen s
    if b ≤ 53 then d
    else
      let k := b - 53
      let q := s >>> k
      let r := s % 2 ^ k
      let half := 2 ^ (k - 1)
      let q2 := if half < r then q + 1
                else if r < half then q
                else if q % 2 = 0 then q else q + 1
      ⟨if d.m < 0 then -(q2 : ℤ) else (q2 : ℤ), d.e + (k : ℤ)⟩

/-- Exact sum of two dyadics (before rounding). -/
def dyAddExact (a b : Dy) : Dy :=
  if a.e ≤ b.e then ⟨a.m + b.m * 2 ^ (b.e - a.e).toNat, a.e⟩
  else ⟨b.m + a.m * 2 ^ (a.e - b.e).toNat, b.e⟩

/-- Binary64 `+`. -/
def fladd (a b : Dy) : Dy := flDy (dyAddExact a b)

/-- Binary64 `*`. -/
def flmul (a b : Dy) : Dy := flDy ⟨a.m * b.m, a.e + b.e⟩

/-- The double nearest 0.1: `0x1.999999999999ap-4`. -/
def dbl01 : Dy := ⟨7205759403792794, -56⟩

/-- The double nearest 0.3: `0x1.3333333333333p-2`. -/
def dbl03 : Dy := ⟨5404319552844595, -54⟩

/-- The double nearest 0.05: `0x1.999999999999ap-5`. -/
def dbl005 : Dy := ⟨7205759403792794, -57⟩

/-- The three embedded literals are normal (53-bit significand) and each is
strictly closer to its decimal value than either neighbouring double:
`m*2^-56` vs `1/10` compares `10m` with `2^56`, `m*2^-54` vs `3/10`
compares `10m` with `3*2^54`, and `m*2^-57` vs `1/20` compares `20m` with
`2^57`, all neighbours at distance one in `m`. -/
theorem f64_literals_correctly_rounded :
    (bitlen dbl01.m.natAbs = 53 ∧
      (10 * dbl01.m - 2 ^ 56).natAbs < (10 * (dbl01.m - 1) - 2 ^ 56).natAbs ∧
      (10 * dbl01.m - 2 ^ 56).natAbs < (10 * (dbl01.m + 1) - 2 ^ 56).natAbs) ∧
    (bitlen dbl03.m.natAbs = 53 ∧
      (10 * dbl03.m - 3 * 2 ^ 54).natAbs <
        (10 * (dbl03.m - 1) - 3 * 2 ^ 54).natAbs ∧
      (10 * dbl03.m - 3 * 2 ^ 54).natAbs <
        (10 * (dbl03.m + 1) - 3 * 2 ^ 54).natAbs) ∧
    (bitlen dbl005.m.natAbs = 53 ∧
      (20 * dbl005.m - 2 ^ 57).natAbs < (20 * (dbl005.m - 1) - 2 ^ 57).natAbs ∧
      (20 * dbl005.m - 2 ^ 57).natAbs < (20 * (dbl005.m + 1) - 2 ^ 57).natAbs) := by
  refine ⟨⟨by decide, by decide, by decide⟩, ⟨by decide, by decide, by decide⟩,
    ⟨by decide, by decide, by decide⟩⟩

/-- Validation of the binary64 model against CPython, stage by stage along
the budgeter run on "create and test everything" (`float.hex` at every
step): `5*0.1 = 0x1.0p-1`, `8*0.1 = 0x1.999999999999ap-1`,
`1.0+0.5 = 0x1.8p+0`, `1.5+0.8 = 0x1.2666666666666p+1` (the exact sum is a
tie, rounded down to even), `+0.3 = 0x1.4ccccccccccccp+1`, adding `0*0.3`
changes nothing, and `20*score = 0x1.9ffffffffffffp+5 =
51.99999999999999289…`. -/
theorem f64_budgeter_trace :
    flmul ⟨5, 0⟩ dbl01 = ⟨4503599627370496, -53⟩ ∧
    flmul ⟨8, 0⟩ dbl01 = ⟨7205759403792794, -53⟩ ∧
    fladd ⟨1, 0⟩ (flmul ⟨5, 0⟩ dbl01) = ⟨6755399441055744, -52⟩ ∧
    fladd ⟨6755399441055744, -52⟩ (flmul ⟨8, 0⟩ dbl01) =
      ⟨5179139571476070, -51⟩ ∧
    fladd ⟨5179139571476070, -51⟩ (flmul ⟨1, 0⟩ dbl03) =
      ⟨5854679515581644, -51⟩ ∧
    fladd ⟨5854679515581644, -51⟩ (flmul ⟨0, 0⟩ dbl03) =
      ⟨5854679515581644, -51⟩ ∧
    flmul ⟨20, 0⟩ ⟨5854679515581644, -51⟩ = ⟨7318349394477055, -47⟩ := by
  refine ⟨by decide, by decide, by decide, by decide, by decide, by decide,
    by decide⟩

/-- `_calculate_adaptive_steps`'s `complexity_score` with binary64
arithmetic, operation for operation as the interpreter executes it: the
integer weights and counts convert to doubles exactly, each
`weight * 0.1` / `count * 0.3` / `(wc - 20) * 0.05` is one rounded
multiplication, and each `+=` is one rounded addition (performed even when
the count is zero, adding exactly 0.0). -/
def complexityScoreF64 (goal : String) : Dy :=
  let goal_lower := pyLower goal
  let s1 := complexity_indicators.foldl
    (fun acc iw => if pyIn iw.1 goal_lower
      then fladd acc (flmul ⟨(iw.2 : ℤ), 0⟩ dbl01) else acc) ⟨1, 0⟩
  let s2 := conjunctions.foldl
    (fun acc conj =>
      fladd acc (flmul ⟨(pyCount goal_lower conj : ℤ), 0⟩ dbl03)) s1
  let word_count := (pySplit goal).length
  if 20 < word_count then
    fladd s2 (flmul ⟨(word_count : ℤ) - 20, 0⟩ dbl005)
  else s2

/-- Python `int()` of a nonnegative finite double (truncation toward zero
is floor division here). -/
def dyTruncInt (d : Dy) : ℤ :=
  if 0 ≤ d.e then d.m * 2 ^ d.e.toNat
  else if 0 ≤ d.m then (d.m.toNat / 2 ^ (-d.e).toNat : ℕ)
  else -((-d.m).toNat / 2 ^ (-d.e).toNat : ℕ)

/-- `Agent._calculate_adaptive_steps` with binary64 arithmetic:
`max(20, min(int(20 * complexity_score), 200))`. -/
def calculate_adaptive_steps_f64 (goal : String) : ℤ :=
  let adaptive_steps := dyTruncInt (flmul ⟨20, 0⟩ (complexityScoreF64 goal))
  max 20 (min adaptive_steps 200)

theorem multiplierSpec_example :
    multiplierSpec "create and test everything" = 13 / 5 := by
  have h1 : complexity_indicators.filter
      (fun iw => pyIn iw.1 (pyLower "create and test everything")) =
      [("create", 5), ("test", 8)] := by decide
  have h2 : pyCount (pyLower "create and test everything") "and" = 1 := by decide
  have h3 : pyCount (pyLower "create and test everything") "then" = 0 := by decide
  have h4 : pyCount (pyLower "create and test everything") "also" = 0 := by decide
  have h5 : pyCount (pyLower "create and test everything") "additionally" = 0 :=
    by decide
  have h6 : pyCount (pyLower "create and test everything") "furthermore" = 0 :=
    by decide
  have h7 : (pySplit "create and test everything").length = 4 := by decide
  unfold multiplierSpec conjunctions
  rw [h1, h7]
  simp only [List.map_cons, List.map_nil, List.sum_cons, List.sum_nil,
    h2, h3, h4, h5, h6]
  norm_num

/-- C8 (code bug): at the goal "create and test everything" the program's
binary64 arithmetic accumulates `complexity_score =
0x1.4ccccccccccccp+1 = 2.5999999999999996…`, so `20 * complexity_score =
51.99999999999999289…` and `int()` truncates to 51 — while the claimed
`round(20 * m)` formula (`m = 13/5` exactly) gives 52. -/
theorem calculate_adaptive_steps_rounding_bug :
    calculate_adaptive_steps_f64 "create and test everything" = 51 ∧
    adaptiveStepsSpec "create and test everything" = 52 := by
  refine ⟨by decide, ?_⟩
  unfold adaptiveStepsSpec
  rw [multiplierSpec_example]
  have h : (20 : ℚ) * (13 / 5) = ((52 : ℤ) : ℚ) := by norm_num
  rw [h, round_intCast]
  rw [min_eq_left (by norm_num), max_eq_right (by norm_num)]
